import Mathlib

/-!
# OpenLogReplicator — verification of spec claims against the source

Shallow embedding of the parts of OpenLogReplicator that the claims C1..C10
talk about, together with theorems settling each claim.

Sources embedded:
* `src/src/common/Ctx.cpp` — memory-chunk manager (`getMemoryChunk`,
  `wontSwap`), timezone parsing/printing, JSON escaping;
* `src/src/builder/Builder.h` — output-builder ring (`builderRotate`,
  `builderBegin`, `builderCommit`, `flush`), numeric decoding
  (`parseNumber`);
* `src/src/builder/BuilderJson.h` — `columnNull`, `appendEscape`;
* `src/src/OpenLogReplicator.cpp` — memory-section configuration checks;
* `src/src/metadata/Checkpoint.cpp` — runtime config-reload error handling.

Machine integers are modelled as `Nat` with explicit wrap-around only where
the C computation can actually wrap (noted at each definition).
-/

namespace OLR

/-! ## Memory-chunk manager (src/src/common/Ctx.cpp) -/

/-- The memory modules of `Ctx::MEMORY` (the header `Ctx.h` is not under
`src/`; the enumerators `BUILDER`, `PARSER`, `READER`, `TRANSACTIONS` are the
ones used throughout `Ctx.cpp`, cf. the `memoryModules` name table at
Ctx.cpp:61). -/
inductive Module
  | builder
  | parser
  | reader
  | transactions
deriving DecidableEq, Repr

/-- The fields of `Ctx` read and written by `Ctx::getMemoryChunk`
(Ctx.cpp:775-872) and `Ctx::wontSwap` (Ctx.cpp:1095-1115). -/
structure CtxMem where
  chunksFree : Nat
  chunksAllocated : Nat
  chunksMax : Nat
  readerAlloc : Nat
  builderAlloc : Nat
  parserAlloc : Nat
  transactionsAlloc : Nat
  readBufferMin : Nat
  writeBufferMin : Nat
  writeBufferMax : Nat
  unswapBufferMin : Nat
  outOfMemoryParser : Bool
  hardShutdown : Bool
deriving DecidableEq, Repr

/-- `memoryModulesAllocated[module]`. -/
def CtxMem.moduleAlloc (s : CtxMem) : Module → Nat
  | .builder => s.builderAlloc
  | .parser => s.parserAlloc
  | .reader => s.readerAlloc
  | .transactions => s.transactionsAlloc

/-- `++memoryModulesAllocated[module]` (Ctx.cpp:837). -/
def CtxMem.bumpModule (s : CtxMem) : Module → CtxMem
  | .builder => { s with builderAlloc := s.builderAlloc + 1 }
  | .parser => { s with parserAlloc := s.parserAlloc + 1 }
  | .reader => { s with readerAlloc := s.readerAlloc + 1 }
  | .transactions => { s with transactionsAlloc := s.transactionsAlloc + 1 }

/-- `reservedChunks` as computed at Ctx.cpp:791-797: shortfalls of the reader
and builder modules to their minima, plus the unswap reserve when the request
is not on behalf of the swap worker. -/
def CtxMem.reservedChunks (s : CtxMem) (swap : Bool) : Nat :=
  (if s.readerAlloc < s.readBufferMin then s.readBufferMin - s.readerAlloc else 0) +
    (if s.builderAlloc < s.writeBufferMin then s.writeBufferMin - s.builderAlloc else 0) +
    (if !swap then s.unswapBufferMin else 0)

/-- State changes performed after the `while (true)` loop of
`Ctx::getMemoryChunk` breaks (Ctx.cpp:832-840): the parser out-of-memory flag
is cleared, one chunk is taken from the free stack and accounted to the
module. -/
def CtxMem.grantChunk (s : CtxMem) (m : Module) : CtxMem :=
  CtxMem.bumpModule
    { s with
      outOfMemoryParser := if m = .parser then false else s.outOfMemoryParser,
      chunksFree := s.chunksFree - 1 }
    m

/-- Result of one iteration of the `while (true)` loop in
`Ctx::getMemoryChunk` (Ctx.cpp:782-830), followed by the post-loop accounting
when the loop breaks: either a chunk is granted (possibly after allocating a
fresh chunk from the OS), or `nullptr` is returned because of hard shutdown,
or the caller is left waiting on `condOutOfMemory`. -/
inductive ChunkOutcome
  | granted (s : CtxMem)
  | nullOnShutdown (s : CtxMem)
  | waitOutOfMemory (s : CtxMem)
deriving DecidableEq, Repr

/-- One round of `Ctx::getMemoryChunk` for a module (Ctx.cpp:775-872).
Mirrors, in order: the reader/builder below-minimum early break
(Ctx.cpp:783-789), the reservation computation, the free-pool test and the
OS-allocation test (both guarded by the builder-maximum condition,
Ctx.cpp:799-817), the parser out-of-memory flag (Ctx.cpp:819-820), the hard
shutdown bail-out (Ctx.cpp:822-823) and the wait on `condOutOfMemory`. -/
def getMemoryChunkIter (s : CtxMem) (m : Module) (swap : Bool) : ChunkOutcome :=
  if (m = .reader ∧ s.readerAlloc < s.readBufferMin) ∨
      (m = .builder ∧ s.builderAlloc < s.writeBufferMin) then
    .granted (s.grantChunk m)
  else if (m ≠ .builder ∨ s.builderAlloc < s.writeBufferMax) ∧
      s.reservedChunks swap < s.chunksFree then
    .granted (s.grantChunk m)
  else if (m ≠ .builder ∨ s.builderAlloc < s.writeBufferMax) ∧
      s.chunksAllocated < s.chunksMax then
    .granted
      (CtxMem.grantChunk
        { s with
          chunksFree := s.chunksFree + 1,
          chunksAllocated := s.chunksAllocated + 1 }
        m)
  else
    let s1 := if m = .parser then { s with outOfMemoryParser := true } else s
    if s1.hardShutdown then .nullOnShutdown s1 else .waitOutOfMemory s1

/-- `Ctx::wontSwap` (Ctx.cpp:1095-1115): raises the fatal out-of-memory error
10017 only when the parser out-of-memory flag is set and the builder module
sits at or below its write-buffer minimum; otherwise it returns with the
state untouched. -/
def wontSwap (s : CtxMem) : Except Nat CtxMem :=
  if !s.outOfMemoryParser then .ok s
  else if s.writeBufferMin < s.builderAlloc then .ok s
  else .error 10017

/-! ## BuilderJson::columnNull (src/src/builder/BuilderJson.h:37-82) -/

/-- Column types compared against in `BuilderJson::columnNull`. Modelled from
the spec: the header `SysCol.h` (enum `SysCol::COLTYPE`) is not under `src/`;
the spec's §4.7 lists the families {char, number, date, raw, float, double,
timestamp, interval, rowid, large-object}, and `columnNull` names the
enumerators below. `other n` stands for any remaining database type code. -/
inductive ColType
  | VARCHAR
  | NUMBER
  | LONG
  | DATE
  | RAW
  | LONG_RAW
  | CHAR
  | FLOAT
  | DOUBLE
  | CLOB
  | BLOB
  | JSON
  | XMLTYPE
  | TIMESTAMP
  | TIMESTAMP_WITH_TZ
  | INTERVAL_YEAR_TO_MONTH
  | INTERVAL_DAY_TO_SECOND
  | UROWID
  | TIMESTAMP_WITH_LOCAL_TZ
  | other (n : Nat)
deriving DecidableEq, Repr

/-- The per-column flags of `DbColumn` consulted by `columnNull`
(src/src/common/DbColumn.h). -/
structure DbColumnModel where
  guard : Bool
  nested : Bool
  hidden : Bool
  unused : Bool
  type : ColType
deriving DecidableEq, Repr

/-- The `Ctx::REDO_FLAGS` show-column bits consulted by `columnNull`. -/
structure ShowFlags where
  showGuardColumns : Bool
  showNestedColumns : Bool
  showHiddenColumns : Bool
  showUnusedColumns : Bool
deriving DecidableEq, Repr

/-- Decision core of `BuilderJson::columnNull` (BuilderJson.h:37-82): `true`
when the function goes on to emit the `"name":null` entry, `false` when it
returns without emitting. `tableKnown` stands for `table != nullptr`,
`hide` for `unknownType == UNKNOWN_TYPE::UNKNOWN_HIDE`. -/
def columnNullEmits (fl : ShowFlags) (tableKnown hide : Bool) (col : DbColumnModel)
    (after : Bool) : Bool :=
  if tableKnown ∧ hide then
    if col.guard ∧ ¬fl.showGuardColumns then false
    else if col.nested ∧ ¬fl.showNestedColumns then false
    else if col.hidden ∧ ¬fl.showHiddenColumns then false
    else if col.unused ∧ ¬fl.showUnusedColumns then false
    else if col.type ≠ .VARCHAR ∧ col.type ≠ .NUMBER ∧ col.type ≠ .DATE ∧
        col.type ≠ .RAW ∧ col.type ≠ .CHAR ∧ col.type ≠ .FLOAT ∧
        col.type ≠ .DOUBLE ∧ (col.type ≠ .XMLTYPE ∨ ¬after) ∧
        (col.type ≠ .JSON ∨ ¬after) ∧ (col.type ≠ .CLOB ∨ ¬after) ∧
        (col.type ≠ .BLOB ∨ ¬after) ∧ col.type ≠ .TIMESTAMP ∧
        col.type ≠ .INTERVAL_YEAR_TO_MONTH ∧ col.type ≠ .INTERVAL_DAY_TO_SECOND ∧
        col.type ≠ .UROWID ∧ col.type ≠ .TIMESTAMP_WITH_LOCAL_TZ then false
    else true
  else true

/-- The allowed-for-null type set as enumerated by the claim: char/varchar,
number, date, raw, float, double, timestamp, the interval types, urowid,
timestamp with local time zone, and the large-object/xml/json types when the
"after" image is being rendered. -/
def nullAllowedType (t : ColType) (after : Bool) : Prop :=
  t = .CHAR ∨ t = .VARCHAR ∨ t = .NUMBER ∨ t = .DATE ∨ t = .RAW ∨ t = .FLOAT ∨
    t = .DOUBLE ∨ t = .TIMESTAMP ∨ t = .INTERVAL_YEAR_TO_MONTH ∨
    t = .INTERVAL_DAY_TO_SECOND ∨ t = .UROWID ∨ t = .TIMESTAMP_WITH_LOCAL_TZ ∨
    ((t = .CLOB ∨ t = .BLOB ∨ t = .XMLTYPE ∨ t = .JSON) ∧ after = true)

instance (t : ColType) (after : Bool) : Decidable (nullAllowedType t after) := by
  unfold nullAllowedType
  infer_instance

/-! ## JSON string escaping

`Ctx::writeEscapeValue` (Ctx.cpp:1254-1277) and `BuilderJson::appendEscape`
(BuilderJson.h:585-608), both modelled at byte level: the input is the byte
sequence of the string and the output the byte sequence emitted. -/

/-- `Ctx::map16` (the header `Ctx.h` is not under `src/`). Modelled from the
spec: the hex renderings in §6 ("0x" + 16 hex) use lowercase hex digits, so
`map16` maps 0..15 to the byte codes of '0'..'9','a'..'f'. -/
def map16 (v : Nat) : Nat :=
  if v < 10 then 48 + v else 87 + v

/-- One input byte of `Ctx::writeEscapeValue` (Ctx.cpp:1256-1274). `*c_str`
has type `char`, which is signed on the reference platform, so the comparison
`*c_str < 32` is true for every byte ≥ 0x80 as well; `(*c_str >> 4) & 0x0F`
and `*c_str & 0x0F` extract bits 4..7 and 0..3 of the byte (arithmetic shift
followed by the mask), i.e. `b / 16 % 16` and `b % 16`. -/
def writeEscapeByte (b : Nat) : List Nat :=
  let signed : Int := if b < 128 then (b : Int) else (b : Int) - 256
  if b = 9 then [92, 116]
  else if b = 13 then [92, 114]
  else if b = 10 then [92, 110]
  else if b = 8 then [92, 98]
  else if b = 12 then [92, 102]
  else if b = 34 ∨ b = 92 then [92, b]
  else if signed < 32 then [92, 117, 48, 48, map16 (b / 16 % 16), map16 (b % 16)]
  else [b]

/-- `Ctx::writeEscapeValue` over a whole byte string. -/
def writeEscapeValue : List Nat → List Nat
  | [] => []
  | b :: rest => writeEscapeByte b ++ writeEscapeValue rest

/-- One input byte of `BuilderJson::appendEscape` (BuilderJson.h:585-608).
The control-byte branch uses `static_cast<unsigned char>(*str) < 32` and then
emits `"\u00"` followed by `appendDec(*str, 2)` — the two *decimal* digits of
the byte value (BuilderJson.h:510-527 writes `value % 10` then `value / 10`
and emits them in reverse order). -/
def appendEscapeByte (b : Nat) : List Nat :=
  if b = 9 then [92, 116]
  else if b = 13 then [92, 114]
  else if b = 10 then [92, 110]
  else if b = 12 then [92, 102]
  else if b = 8 then [92, 98]
  else if b < 32 then [92, 117, 48, 48, 48 + b / 10 % 10, 48 + b % 10]
  else if b = 34 ∨ b = 92 ∨ b = 47 then [92, b]
  else [b]

/-- `BuilderJson::appendEscape` over a whole byte string. -/
def appendEscape : List Nat → List Nat
  | [] => []
  | b :: rest => appendEscapeByte b ++ appendEscape rest

/-- The set of bytes on which the two escapers produce the same output (see
`escapeByte_agree_iff`). -/
def escapeAgrees (b : Nat) : Prop :=
  b ≤ 10 ∨ b = 12 ∨ b = 13 ∨ (32 ≤ b ∧ b ≤ 127 ∧ b ≠ 47)

instance (b : Nat) : Decidable (escapeAgrees b) := by
  unfold escapeAgrees
  infer_instance

/-! ## Timezone parsing and printing (src/src/common/Ctx.cpp:398-509) -/

/-- `Ctx::map10` (the header `Ctx.h` is not under `src/`). Modelled from the
spec: decimal renderings use the digit characters, so `map10 v` is the
character `'0' + v` (a `char`, hence truncated modulo 256). -/
def map10 (v : Nat) : Char :=
  Char.ofNat ((48 + v) % 256)

/-- The named-timezone substitution table of `Ctx::parseTimezone`
(Ctx.cpp:399-455), in source order (the duplicate "GMT+0" entry included). -/
def timezoneAliases : List (String × String) :=
  [("Etc/GMT-14", "-14:00"), ("Etc/GMT-13", "-13:00"), ("Etc/GMT-12", "-12:00"),
   ("Etc/GMT-11", "-11:00"), ("HST", "-10:00"), ("Etc/GMT-10", "-10:00"),
   ("Etc/GMT-9", "-09:00"), ("PST", "-08:00"), ("PST8PDT", "-08:00"),
   ("Etc/GMT-8", "-08:00"), ("MST", "-07:00"), ("MST7MDT", "-07:00"),
   ("Etc/GMT-7", "-07:00"), ("CST", "-06:00"), ("CST6CDT", "-06:00"),
   ("Etc/GMT-6", "-06:00"), ("EST", "-05:00"), ("EST5EDT", "-05:00"),
   ("Etc/GMT-5", "-05:00"), ("Etc/GMT-4", "-04:00"), ("Etc/GMT-3", "-03:00"),
   ("Etc/GMT-2", "-02:00"), ("Etc/GMT-1", "-01:00"), ("GMT", "+00:00"),
   ("Etc/GMT", "+00:00"), ("Greenwich", "+00:00"), ("Etc/Greenwich", "+00:00"),
   ("GMT0", "+00:00"), ("Etc/GMT0", "+00:00"), ("GMT+0", "+00:00"),
   ("Etc/GMT-0", "+00:00"), ("GMT+0", "+00:00"), ("Etc/GMT+0", "+00:00"),
   ("UTC", "+00:00"), ("Etc/UTC", "+00:00"), ("UCT", "+00:00"),
   ("Etc/UCT", "+00:00"), ("Universal", "+00:00"), ("Etc/Universal", "+00:00"),
   ("WET", "+00:00"), ("MET", "+01:00"), ("CET", "+01:00"),
   ("Etc/GMT+1", "+01:00"), ("EET", "+02:00"), ("Etc/GMT+2", "+02:00"),
   ("Etc/GMT+3", "+03:00"), ("Etc/GMT+4", "+04:00"), ("Etc/GMT+5", "+05:00"),
   ("Etc/GMT+6", "+06:00"), ("Etc/GMT+7", "+07:00"), ("PRC", "+08:00"),
   ("ROC", "+08:00"), ("Etc/GMT+8", "+08:00"), ("Etc/GMT+9", "+09:00"),
   ("Etc/GMT+10", "+10:00"), ("Etc/GMT+11", "+11:00"), ("Etc/GMT+12", "+12:00")]

/-- Sequential application of the `strcmp` substitutions at the head of
`Ctx::parseTimezone`. -/
def applyAliases (s : List Char) : List Char :=
  timezoneAliases.foldl (fun acc pr => if acc = pr.1.toList then pr.2.toList else acc) s

/-- `str[i] - '0'` for a character already checked to be a digit. -/
def digitVal (c : Char) : Int :=
  (c.toNat : Int) - 48

/-- `Ctx::parseTimezone` (Ctx.cpp:398-485): returns the value stored in
`out` on success. The 5-character form is `sH:MM`; the 6-character form is
`sHH:MM`. The sign of the leading hour-digit term and the scale factors are
exactly those of Ctx.cpp:464 and Ctx.cpp:473. -/
def parseTimezone (s : List Char) : Option Int :=
  let str := applyAliases s
  match str with
  | [c0, c1, c2, c3, c4] =>
    if ('0' ≤ c1 ∧ c1 ≤ '9') ∧ c2 = ':' ∧ ('0' ≤ c3 ∧ c3 ≤ '9') ∧
        ('0' ≤ c4 ∧ c4 ≤ '9') then
      let out := -digitVal c1 * 3600 + digitVal c3 * 60 + digitVal c4
      if c0 = '-' then some (-out) else if c0 ≠ '+' then none else some out
    else none
  | [c0, c1, c2, c3, c4, c5] =>
    if ('0' ≤ c1 ∧ c1 ≤ '9') ∧ ('0' ≤ c2 ∧ c2 ≤ '9') ∧ c3 = ':' ∧
        ('0' ≤ c4 ∧ c4 ≤ '9') ∧ ('0' ≤ c5 ∧ c5 ≤ '9') then
      let out := -digitVal c1 * 36000 + digitVal c2 * 3600 + digitVal c4 * 60 +
        digitVal c5
      if c0 = '-' then some (-out) else if c0 ≠ '+' then none else some out
    else none
  | _ => none

/-- `Ctx::timezoneToString` (Ctx.cpp:487-509): sign, then the four digits
written back to front as `m % 10`, `(m / 10) % 6`, `(m / 10 / 6) % 10`,
`(m / 10 / 6 / 10) % 10` where `m` is the absolute value in minutes. -/
def timezoneToString (tz : Int) : List Char :=
  let sgn : Char := if tz < 0 then '-' else '+'
  let m : Nat := tz.natAbs / 60
  [sgn, map10 (m / 10 / 6 / 10 % 10), map10 (m / 10 / 6 % 10), ':',
   map10 (m / 10 % 6), map10 (m % 10)]

/-! ## Memory-section configuration (src/src/OpenLogReplicator.cpp:233-348) -/

/-- The `memory` section of one `source` entry: which keys are present and
their (`uint64`) values. -/
structure MemoryJson where
  minMb : Option Nat
  maxMb : Option Nat
  readBufferMaxMb : Option Nat
  readBufferMinMb : Option Nat
  swapMb : Option Nat
  unswapBufferMinMb : Option Nat
  writeBufferMaxMb : Option Nat
  writeBufferMinMb : Option Nat
deriving DecidableEq, Repr

/-- The resolved memory parameters handed to `Ctx::initialize`. -/
structure MemorySettings where
  minMb : Nat
  maxMb : Nat
  readBufferMaxMb : Nat
  readBufferMinMb : Nat
  swapMb : Nat
  unswapBufferMinMb : Nat
  writeBufferMaxMb : Nat
  writeBufferMinMb : Nat
deriving DecidableEq, Repr

/-- `2^64`: the modulus of the `uint64_t` arithmetic of the memory
section. -/
def U64MOD : Nat := 18446744073709551616

/-- A `uint64_t` expression: its value reduced modulo `2^64`. -/
def u64 (n : Nat) : Nat := n % U64MOD

/-- Wrapping `uint64_t` subtraction `a - b`. -/
def u64sub (a b : Nat) : Nat := u64 (a + (U64MOD - u64 b))

/-- `(v / Ctx::MEMORY_CHUNK_SIZE_MB) * Ctx::MEMORY_CHUNK_SIZE_MB` — each
configured value is rounded down to a chunk multiple (no wrap: the result
never exceeds `v`). -/
def roundChunk (chunkMb v : Nat) : Nat :=
  v / chunkMb * chunkMb

/-- The `min-mb` key (OpenLogReplicator.cpp:253-259): round down, reject
below `Ctx::MEMORY_CHUNK_MIN_MB`; default 32. -/
def checkMinMb (chunkMb chunkMinMb : Nat) : Option Nat → Except Nat Nat
  | some v =>
    let v := roundChunk chunkMb v
    if v < chunkMinMb then .error 30001 else .ok v
  | none => .ok 32

/-- The `max-mb` key (OpenLogReplicator.cpp:261-275): round down, reject
below `min-mb`, and recompute the dependent defaults — result is
`(maxMb, readBufferMax, writeBufferMax, swap)`; the swap default
`memoryMaxMb * 3 / 4` (OpenLogReplicator.cpp:274) multiplies in `uint64_t`,
so the product wraps modulo `2^64` before the division. Without the key the
initial defaults `(2048, 128, 2048, 2048*3/4)` stand
(OpenLogReplicator.cpp:233-241, with the write-buffer maximum defaulting to
`max-mb` itself). -/
def checkMaxMb (chunkMb minMb : Nat) : Option Nat → Except Nat (Nat × Nat × Nat × Nat)
  | some v =>
    let v := roundChunk chunkMb v
    if v < minMb then .error 30001
    else
      let rm := v / 8
      let rm := if rm > 128 then 128 else rm
      let wm := if v > 2048 then 2048 else v
      .ok (v, rm, wm, u64 (v * 3) / 4)
  | none => .ok (2048, 128, 2048, 2048 * 3 / 4)

/-- The `unswap-buffer-min-mb` key (OpenLogReplicator.cpp:277-280): rounded
down, never rejected; default 4. -/
def checkUnswapMb (chunkMb : Nat) : Option Nat → Nat
  | some v => roundChunk chunkMb v
  | none => 4

/-- The `swap-mb` key (OpenLogReplicator.cpp:282-288): round down, reject
above the `uint64_t` difference `max-mb - 4` (which wraps for
`max-mb < 4`); default `dflt = max-mb * 3/4`. -/
def checkSwapMb (chunkMb maxMb dflt : Nat) : Option Nat → Except Nat Nat
  | some v =>
    let v := roundChunk chunkMb v
    if v > u64sub maxMb 4 then .error 30001 else .ok v
  | none => .ok dflt

/-- The four buffer keys (OpenLogReplicator.cpp:290-338) share one shape:
round down, reject above `max-mb`, reject below a lower bound (4 for the
minima, the corresponding minimum for the maxima); `dflt` when absent. -/
def checkBufferMb (chunkMb maxMb lo dflt : Nat) : Option Nat → Except Nat Nat
  | some v =>
    let v := roundChunk chunkMb v
    if v > maxMb then .error 30001
    else if v < lo then .error 30001
    else .ok v
  | none => .ok dflt

/-- The memory-section processing of `OpenLogReplicator::run`
(OpenLogReplicator.cpp:233-348), in source order, ending with the final sum
comparison (OpenLogReplicator.cpp:343-347), whose left-hand side is a
`uint64_t` sum and therefore wraps modulo `2^64`. The chunk constants are
parameters: `Ctx.h` is not under `src/` (the spec's §4.1 gives a fixed
chunk size, e.g. 1 MiB). Every rejected value raises
`ConfigurationException` 30001. -/
def processMemoryConfig (chunkMb chunkMinMb : Nat) (memory : Option MemoryJson) :
    Except Nat MemorySettings :=
  match memory with
  | none =>
    .ok { minMb := 32, maxMb := 2048, readBufferMaxMb := 128,
          readBufferMinMb := 4, swapMb := 2048 * 3 / 4, unswapBufferMinMb := 4,
          writeBufferMaxMb := 2048, writeBufferMinMb := 4 }
  | some j => do
    let minMb ← checkMinMb chunkMb chunkMinMb j.minMb
    let maxD ← checkMaxMb chunkMb minMb j.maxMb
    let unswapMinMb := checkUnswapMb chunkMb j.unswapBufferMinMb
    let swapMb ← checkSwapMb chunkMb maxD.1 maxD.2.2.2 j.swapMb
    let readMinMb ← checkBufferMb chunkMb maxD.1 4 4 j.readBufferMinMb
    let readMaxMb ← checkBufferMb chunkMb maxD.1 readMinMb maxD.2.1 j.readBufferMaxMb
    let writeMinMb ← checkBufferMb chunkMb maxD.1 4 4 j.writeBufferMinMb
    let writeMaxMb ← checkBufferMb chunkMb maxD.1 writeMinMb maxD.2.2.1 j.writeBufferMaxMb
    if u64 (unswapMinMb + readMinMb + writeMinMb + 4) > maxD.1 then Except.error 30001
    else
      Except.ok
        { minMb := minMb, maxMb := maxD.1, readBufferMaxMb := readMaxMb,
          readBufferMinMb := readMinMb, swapMb := swapMb,
          unswapBufferMinMb := unswapMinMb, writeBufferMaxMb := writeMaxMb,
          writeBufferMinMb := writeMinMb }

/-! ## The output-builder ring (src/src/builder/Builder.h)

The builder writes framed messages into a singly linked list of queue nodes
(`BuilderQueue`). The model tracks the node currently written
(`lastBuilderQueue`), the nodes already linked before it, and the
message-in-progress bookkeeping (`messageSize`, `messagePosition`, `msg`).
Byte contents are irrelevant to the claims and are not modelled. -/

/-- `Builder::BUFFER_START_UNDEFINED` (Builder.h:173). -/
def BUFFER_START_UNDEFINED : Nat := 0xFFFFFFFFFFFFFFFF

/-- The builder constants fixed at construction: `OUTPUT_BUFFER_DATA_SIZE`
(Builder.h:81, `MEMORY_CHUNK_SIZE - sizeof(BuilderQueue)`),
`sizeof(struct BuilderMsg)`, the write-buffer hard limit
`memoryChunksWriteBufferMax * MEMORY_CHUNK_SIZE_MB * 1024 * 1024`
(Builder.h:250) and `flushBuffer`. The exact byte values come from `Ctx.h`
and struct layout, neither under `src/`, so they stay parameters. -/
structure BuilderCfg where
  dataSize : Nat
  msgHeaderSize : Nat
  writeBufferMaxBytes : Nat
  flushBuffer : Nat
deriving DecidableEq, Repr

/-- Builder state: the last (currently written) queue node's `size` and
`start`, the closed nodes' final `(size, start)` pairs (newest first),
whether a message is in progress (`msg != nullptr`), the offset of the
in-progress header inside its node, `messageSize`, `messagePosition`,
`unconfirmedSize`, the offsets at which `builderBegin` placed message
headers (newest first), and whether the last `builderCommit` invoked
`flush()`. -/
structure BuilderSt where
  lastSize : Nat
  lastStart : Nat
  closed : List (Nat × Nat)
  msgActive : Bool
  msgOffset : Nat
  msgSize : Nat
  msgPos : Nat
  unconfirmedSize : Nat
  placements : List Nat
  signalled : Bool
deriving DecidableEq, Repr

/-- `Builder::builderRotate` (Builder.h:249-283). After the write-buffer
size check (error 10072), a fresh node with `size = 0` is linked. If `copy`
is requested, a message is in progress and the whole message still fits in
one node, the in-progress header and bytes are copied to the fresh node,
whose `start` becomes 0 and which now holds the header at offset 0;
otherwise the current node is closed absorbing the partial message bytes
(`size += messagePosition`, `messageSize += messagePosition`,
`messagePosition = 0`) and the fresh node's `start` is
`BUFFER_START_UNDEFINED`. -/
def builderRotate (cfg : BuilderCfg) (copy : Bool) (s : BuilderSt) :
    Except Nat BuilderSt :=
  if s.msgSize > cfg.writeBufferMaxBytes then .error 10072
  else if copy = true ∧ s.msgActive = true ∧ s.msgSize + s.msgPos < cfg.dataSize then
    .ok { s with
          closed := (s.lastSize, s.lastStart) :: s.closed,
          lastSize := 0, lastStart := 0, msgOffset := 0 }
  else
    .ok { s with
          closed := (s.lastSize + s.msgPos, s.lastStart) :: s.closed,
          msgSize := s.msgSize + s.msgPos, msgPos := 0,
          lastSize := 0, lastStart := BUFFER_START_UNDEFINED }

/-- `Builder::builderShift` (Builder.h:362-367): advance the write position
one byte; rotate when the node is exhausted. -/
def builderShift (cfg : BuilderCfg) (copy : Bool) (s : BuilderSt) :
    Except Nat BuilderSt :=
  let s := { s with msgPos := s.msgPos + 1 }
  if cfg.dataSize ≤ s.lastSize + s.msgPos then builderRotate cfg copy s
  else .ok s

/-- `Builder::append(char)` (Builder.h:414-417): write one byte, then
`builderShift(true)`. -/
def appendByte (cfg : BuilderCfg) (s : BuilderSt) : Except Nat BuilderSt :=
  builderShift cfg true s

/-- Byte-by-byte fallback loop of `Builder::append(const char*, uint64_t)`
(Builder.h:425-426). -/
def appendBytesSlow (cfg : BuilderCfg) : Nat → BuilderSt → Except Nat BuilderSt
  | 0, s => .ok s
  | n + 1, s => do appendBytesSlow cfg n (← appendByte cfg s)

/-- `Builder::append(const char*, uint64_t)` (Builder.h:419-428): block copy
when the data fits in the current node, otherwise byte-by-byte appends. -/
def appendBytes (cfg : BuilderCfg) (n : Nat) (s : BuilderSt) :
    Except Nat BuilderSt :=
  if s.lastSize + s.msgPos + n < cfg.dataSize then
    .ok { s with msgPos := s.msgPos + n }
  else appendBytesSlow cfg n s

/-- `Builder::builderBegin` (Builder.h:373-394): reset the message
bookkeeping, rotate if the header does not fit in the current node, place
the `BuilderMsg` header at the node's current `size` and advance the write
position past it (`builderShiftFast(sizeof(struct BuilderMsg))`). -/
def builderBegin (cfg : BuilderCfg) (s : BuilderSt) : Except Nat BuilderSt := do
  let s := { s with msgSize := 0, msgPos := 0 }
  let s ←
    if cfg.dataSize ≤ s.lastSize + s.msgPos + cfg.msgHeaderSize then
      builderRotate cfg true s
    else .ok s
  .ok { s with
        msgActive := true, msgOffset := s.lastSize,
        placements := s.lastSize :: s.placements,
        msgPos := s.msgPos + cfg.msgHeaderSize }

/-- `Builder::builderCommit` (Builder.h:396-412): absorb the position into
`messageSize`, reject an empty message (error 50058), pad the position by
`(8 - (messagePosition & 7)) & 7`, account the (unpadded) message size into
`unconfirmedSize`, clear `msg`, close the message in the node (`size +=
messagePosition`, fixing an undefined `start` to the new size), then invoke
`flush()` — which notifies `condNoWriterWork` and resets `unconfirmedSize`
to 0 — exactly when `flushBuffer == 0` or `unconfirmedSize > flushBuffer`.
`signalled` records whether this commit flushed. -/
def builderCommit (cfg : BuilderCfg) (s : BuilderSt) : Except Nat BuilderSt :=
  let s := { s with msgSize := s.msgSize + s.msgPos }
  if s.msgSize = cfg.msgHeaderSize then .error 50058
  else
    let s := { s with msgPos := s.msgPos + (8 - s.msgPos % 8) % 8 }
    let s := { s with unconfirmedSize := s.unconfirmedSize + s.msgSize }
    let s := { s with msgActive := false }
    let s := { s with lastSize := s.lastSize + s.msgPos }
    let s := { s with
               lastStart := if s.lastStart = BUFFER_START_UNDEFINED then
                 s.lastSize else s.lastStart }
    if cfg.flushBuffer = 0 ∨ s.unconfirmedSize > cfg.flushBuffer then
      .ok { s with unconfirmedSize := 0, signalled := true }
    else .ok { s with signalled := false }

/-- Producer-side operations on the builder ring. -/
inductive BuilderOp
  | begin
  | append
  | appendStr (n : Nat)
  | commit
deriving DecidableEq, Repr

/-- One operation step. -/
def builderStep (cfg : BuilderCfg) : BuilderOp → BuilderSt → Except Nat BuilderSt
  | .begin, s => builderBegin cfg s
  | .append, s => appendByte cfg s
  | .appendStr n, s => appendBytes cfg n s
  | .commit, s => builderCommit cfg s

/-- Run a list of producer operations. -/
def builderRun (cfg : BuilderCfg) : List BuilderOp → BuilderSt → Except Nat BuilderSt
  | [], s => .ok s
  | op :: ops, s => do builderRun cfg ops (← builderStep cfg op s)

/-- The builder's initial state: the first queue node is empty. (The
`Builder` constructor lives in `Builder.cpp`, not under `src/`; modelled
from the spec's §4.7 — "each node owns a byte buffer", the producer starts
writing a fresh, empty node.) -/
def builderInit : BuilderSt :=
  { lastSize := 0, lastStart := BUFFER_START_UNDEFINED, closed := [],
    msgActive := false, msgOffset := 0, msgSize := 0, msgPos := 0,
    unconfirmedSize := 0, placements := [], signalled := false }

/-! ## Numeric decoding: Builder::parseNumber (src/src/builder/Builder.h:470-605)

The decoder reads the on-wire number `data[0..size-1]` and appends decimal
characters to the value buffer; the model returns the appended character
list. `uint64_t` subtractions that can wrap (`data[j] - 1` at a zero byte,
`101 - data[j]` at a byte above 101) are modelled with their exact wrapped
values. -/

/-- `0xFFFFFFFFFFFFFFFF`, the largest `uint64_t` value. -/
def U64MAX : Nat := 18446744073709551615

/-- `value = data[j] - 1` computed in `uint64_t` (Builder.h:493 etc.):
wraps to `U64MAX` when the byte is 0. -/
def u64pred (b : Nat) : Nat :=
  if b = 0 then U64MAX else b - 1

/-- `value = 101 - data[j]` computed in `uint64_t` (Builder.h:557 etc.):
wraps for bytes above 101. -/
def u64from101 (b : Nat) : Nat :=
  if b ≤ 101 then 101 - b else U64MAX + 1 - (b - 101)

/-- A base-100 pair printed as two decimal characters,
`map10(value / 10)` then `map10(value % 10)`. -/
def pairChars (v : Nat) : List Char :=
  [map10 (v / 10), map10 (v % 10)]

/-- The first pre-decimal pair, printed without a leading zero when the
value is a single digit (Builder.h:494-499). -/
def firstPairChars (v : Nat) : List Char :=
  if v < 10 then [map10 v] else [map10 (v / 10), map10 (v % 10)]

/-- The last fractional pair, its trailing zero omitted
(Builder.h:536-539). -/
def lastPairChars (v : Nat) : List Char :=
  map10 (v / 10) :: (if v % 10 = 0 then [] else [map10 (v % 10)])

/-- `while (zeros > 0) ( append '0'; append '0'; --zeros )`
(Builder.h:522-526). -/
def zeroPairs : Nat → List Char
  | 0 => []
  | z + 1 => '0' :: '0' :: zeroPairs z

/-- The integer-part loop `while (digits > 0)` (Builder.h:504-515 positive,
Builder.h:567-578 negative): while pairs remain, print `pv data[j]` as two
digits and advance `j` when `j ≤ jMax`, else print "00" without advancing.
Returns the printed characters and the final `j`. (The positive branch
reads `data[j]` before the bound test; since the read value is unused in
the padding branch, the output is the same.) -/
def numIntLoop (data : List Nat) (pv : Nat → Nat) (jMax : Nat) :
    Nat → Nat → List Char × Nat
  | j, 0 => ([], j)
  | j, d + 1 =>
    if j ≤ jMax then
      let value := pv (data.getD j 0)
      let r := numIntLoop data pv jMax (j + 1) d
      (pairChars value ++ r.1, r.2)
    else
      let r := numIntLoop data pv jMax j d
      ('0' :: '0' :: r.1, r.2)

/-- The fractional loop `while (j <= jMax - 1U)` plus the final trimmed
pair (Builder.h:528-539, 590-600). Only evaluated with `1 ≤ j ≤ jMax`. -/
def numFracLoop (data : List Nat) (pv : Nat → Nat) (jMax : Nat) (j : Nat) :
    List Char :=
  if _h : j ≤ jMax - 1 then
    pairChars (pv (data.getD j 0)) ++ numFracLoop data pv jMax (j + 1)
  else
    lastPairChars (pv (data.getD j 0))
termination_by jMax + 1 - j
decreasing_by omega

/-- The fraction part `if (j <= jMax)` (Builder.h:519-540, 581-601): a
decimal point, `zeros` zero pairs, then the fractional pairs with the last
one trimmed. -/
def numFrac (data : List Nat) (pv : Nat → Nat) (jMax j zeros : Nat) :
    List Char :=
  if j ≤ jMax then '.' :: (zeroPairs zeros ++ numFracLoop data pv jMax j)
  else []

/-- The positive branch of `parseNumber` (Builder.h:483-540), entered with
`digits > 0x80` and `jMax ≥ 1`. -/
def parseNumberPos (data : List Nat) (jMax digits : Nat) : List Char :=
  if digits ≤ 0xC0 then
    '0' :: numFrac data u64pred jMax 1 (0xC0 - digits)
  else
    let value := u64pred (data.getD 1 0)
    let r := numIntLoop data u64pred jMax 2 (digits - 0xC0 - 1)
    firstPairChars value ++ r.1 ++ numFrac data u64pred jMax r.2 0

/-- The negative branch of `parseNumber` (Builder.h:541-601), entered with
`digits < 0x80` and `jMax ≥ 1`; the leading '-' is prepended by the
caller. A trailing `0x66` byte lowers `jMax` (Builder.h:547-548). -/
def parseNumberNeg (data : List Nat) (jMax0 digits : Nat) : List Char :=
  let jMax := if data.getD jMax0 0 = 0x66 then jMax0 - 1 else jMax0
  if 0x3F ≤ digits then
    '0' :: numFrac data u64from101 jMax 1 (digits - 0x3F)
  else
    let value := u64from101 (data.getD 1 0)
    let r := numIntLoop data u64from101 jMax 2 (0x3F - digits - 1)
    firstPairChars value ++ r.1 ++ numFrac data u64from101 jMax r.2 0

/-- `Builder::parseNumber` (Builder.h:470-605). `data` is the byte array,
its length the `size` argument (callers pass `size ≥ 1`; the `[]` case
stands for the out-of-bounds read the C++ would perform). Returns the
decoded characters or the RedoLogException code 50009. -/
def parseNumber (data : List Nat) : Except Nat (List Char) :=
  match data with
  | [] => .error 50009
  | digits :: _ =>
    if digits = 0x80 then .ok ['0']
    else
      let jMax := data.length - 1
      if 0x80 < digits ∧ 1 ≤ jMax then .ok (parseNumberPos data jMax digits)
      else if digits < 0x80 ∧ 1 ≤ jMax then
        .ok ('-' :: parseNumberNeg data jMax digits)
      else .error 50009

/-! ### The claim-level rendering of the on-wire numeric format

Written from the claim's words: the first byte `D` fixes the pre-decimal
pair count (`D - 0xC0` positive, `0x3F - D` negative); the digit pairs are
`data[j] - 1` (positive) or `101 - data[j]` (negative, a trailing `0x66`
terminator stripped); the trailing zero of the last fractional pair is
trimmed. -/

/-- Pairs printed two digits each. -/
def renderPairs : List Nat → List Char
  | [] => []
  | v :: rest => pairChars v ++ renderPairs rest

/-- Fractional pairs: two digits each, the final pair with its trailing
zero trimmed. -/
def renderFrac : List Nat → List Char
  | [] => []
  | [v] => lastPairChars v
  | v :: rest => pairChars v ++ renderFrac rest

/-- The first `k` pairs, zero pairs substituted where the data ran out. -/
def padPairs (k : Nat) (ps : List Nat) : List Nat :=
  ps.take k ++ List.replicate (k - ps.length) 0

/-- The claim's positive rendering, over the pair values
`ps = (data[1..]).map (· - 1)`: with `D ≤ 0xC0` a "0" followed by the
all-fractional part prefixed by `0xC0 - D` zero pairs; with `D > 0xC0` the
first `k = D - 0xC0` pairs before the decimal point (first pair without
leading zero, missing pairs as "00") and the remaining pairs after it. -/
def specNumberPos (D : Nat) (ps : List Nat) : List Char :=
  if D ≤ 0xC0 then
    '0' :: (if ps = [] then []
            else '.' :: (List.replicate (2 * (0xC0 - D)) '0' ++ renderFrac ps))
  else
    let k := D - 0xC0
    firstPairChars (ps.headD 0) ++ renderPairs (padPairs (k - 1) (ps.drop 1)) ++
      (if ps.drop k = [] then [] else '.' :: renderFrac (ps.drop k))

/-- The claim's negative rendering over the raw bytes `bytes = data[1..]`:
a trailing `0x66` terminator byte is stripped, pair values are
`101 - byte`, the pre-decimal pair count is `k = 0x3F - D` (`D ≥ 0x3F`
giving "0" plus `D - 0x3F` fractional zero pairs). The first pre-decimal
pair always reads `data[1]` — also when that byte was the stripped
terminator, matching the decoder, which probes `data[1]` before testing the
shortened bound. -/
def specNumberNeg (D : Nat) (bytes : List Nat) : List Char :=
  let qs := (if bytes.getLast? = some 0x66 then bytes.dropLast else bytes).map
    u64from101
  if 0x3F ≤ D then
    '0' :: (if qs = [] then []
            else '.' :: (List.replicate (2 * (D - 0x3F)) '0' ++ renderFrac qs))
  else
    let k := 0x3F - D
    firstPairChars (u64from101 (bytes.headD 0)) ++
      renderPairs (padPairs (k - 1) (qs.drop 1)) ++
      (if qs.drop k = [] then [] else '.' :: renderFrac (qs.drop k))

/-! ## Runtime config-reload versus startup error handling
(src/src/metadata/Checkpoint.cpp:61-102, src/src/OpenLogReplicator.cpp:131-) -/

/-- The exception classes relevant to configuration processing. -/
inductive ErrKind
  | config
  | data
  | runtime
deriving DecidableEq, Repr

/-- An OpenLogReplicator exception: class plus numeric code. -/
structure OlrError where
  kind : ErrKind
  code : Nat
deriving DecidableEq, Repr

/-- Outcome of `Checkpoint::trackConfigFile`. -/
inductive TrackOutcome
  | raised (e : OlrError)
  | keptOldConfig (logged : OlrError)
  | reloaded
  | unchanged
deriving DecidableEq, Repr

/-- `Checkpoint::trackConfigFile` (Checkpoint.cpp:61-102). A failing `stat`
raises RuntimeException 10003 outside the try block; an unchanged mtime
returns early; otherwise the open/size/read steps (`readStep`, raising
ConfigurationException 10001/10004/10005) and `Checkpoint::updateConfigFile`
(`updateStep`, raising ConfigurationException or DataException codes) run
inside a try block whose handlers catch exactly `ConfigurationException` and
`DataException`, log `(code, msg)` through `ctx->error` and fall through —
the previously loaded configuration stays in force. Any other exception
class propagates. -/
def trackConfigFile (statFails : Bool) (mtimeChanged : Bool)
    (readStep : Except OlrError Unit) (updateStep : Except OlrError Unit) :
    TrackOutcome :=
  if statFails then .raised ⟨.runtime, 10003⟩
  else if ¬mtimeChanged then .unchanged
  else
    match (do readStep; updateStep : Except OlrError Unit) with
    | .ok _ => .reloaded
    | .error e =>
      match e.kind with
      | .config => .keptOldConfig e
      | .data => .keptOldConfig e
      | .runtime => .raised e

/-- Outcome of process startup. -/
inductive StartupOutcome
  | started
  | fatalExit (e : OlrError)
deriving DecidableEq, Repr

/-- Startup configuration processing. `OpenLogReplicator::run`
(OpenLogReplicator.cpp:131-) contains no handler, so any
Configuration/Data/Runtime exception raised while reading and validating the
config file propagates out of `run`. Modelled from the spec for the part
outside `src/` (`main` is not in the sampled sources): "Fatal at startup" —
the propagated error aborts the process with a non-zero exit. -/
def runStartup (configResult : Except OlrError Unit) : StartupOutcome :=
  match configResult with
  | .ok _ => .started
  | .error e => .fatalExit e

/-! ## Claim theorems: C2 and C7 -/

/-- C2: when `Ctx::getMemoryChunk` cannot supply a chunk for the parser
module — the free pool does not exceed the reader/builder reservation plus
the unswap reserve, and the allocated count has reached `memoryChunksMax` —
the round sets `outOfMemoryParser` and leaves the caller waiting on the
memory condition variable; and `Ctx::wontSwap` raises the fatal error 10017
exactly when that flag is set and the builder module's allocation is at or
below its write-buffer minimum, returning with the state unchanged
otherwise. -/
theorem getMemoryChunk_parser_oom_and_wontSwap (s : CtxMem)
    (hfree : s.chunksFree ≤ s.reservedChunks false)
    (hmax : s.chunksMax ≤ s.chunksAllocated)
    (hshut : s.hardShutdown = false) :
    getMemoryChunkIter s .parser false =
        .waitOutOfMemory { s with outOfMemoryParser := true } ∧
      ∀ s' : CtxMem,
        (wontSwap s' = .error 10017 ↔
          s'.outOfMemoryParser = true ∧ s'.builderAlloc ≤ s'.writeBufferMin) ∧
        (wontSwap s' ≠ .error 10017 → wontSwap s' = .ok s') := by
  constructor
  · unfold getMemoryChunkIter
    rw [if_neg, if_neg, if_neg]
    · simp only [hshut]
      rfl
    · rintro ⟨-, h⟩
      omega
    · rintro ⟨-, h⟩
      omega
    · rintro (⟨h, -⟩ | ⟨h, -⟩) <;> exact absurd h (by decide)
  · intro s'
    rcases hoom : s'.outOfMemoryParser
    · have hws : wontSwap s' = .ok s' := by
        unfold wontSwap
        simp [hoom]
      rw [hws]
      simp [hoom]
    · by_cases hlt : s'.writeBufferMin < s'.builderAlloc
      · have hws : wontSwap s' = .ok s' := by
          unfold wontSwap
          simp [hoom, hlt]
        rw [hws]
        simp [hoom]
        omega
      · have hws : wontSwap s' = .error 10017 := by
          unfold wontSwap
          simp [hoom, hlt]
        rw [hws]
        simp [hoom]
        omega

/-- C2 witness: a concrete exhausted state. -/
theorem getMemoryChunk_parser_oom_and_wontSwap_witness :
    getMemoryChunkIter
        { chunksFree := 4, chunksAllocated := 16, chunksMax := 16,
          readerAlloc := 2, builderAlloc := 4, parserAlloc := 9,
          transactionsAlloc := 1, readBufferMin := 4, writeBufferMin := 4,
          writeBufferMax := 8, unswapBufferMin := 4,
          outOfMemoryParser := false, hardShutdown := false }
        .parser false =
      .waitOutOfMemory
        { chunksFree := 4, chunksAllocated := 16, chunksMax := 16,
          readerAlloc := 2, builderAlloc := 4, parserAlloc := 9,
          transactionsAlloc := 1, readBufferMin := 4, writeBufferMin := 4,
          writeBufferMax := 8, unswapBufferMin := 4,
          outOfMemoryParser := true, hardShutdown := false } ∧
    wontSwap
        { chunksFree := 4, chunksAllocated := 16, chunksMax := 16,
          readerAlloc := 2, builderAlloc := 4, parserAlloc := 9,
          transactionsAlloc := 1, readBufferMin := 4, writeBufferMin := 4,
          writeBufferMax := 8, unswapBufferMin := 4,
          outOfMemoryParser := true, hardShutdown := false } =
      .error 10017 := by
  have h := getMemoryChunk_parser_oom_and_wontSwap
    { chunksFree := 4, chunksAllocated := 16, chunksMax := 16,
      readerAlloc := 2, builderAlloc := 4, parserAlloc := 9,
      transactionsAlloc := 1, readBufferMin := 4, writeBufferMin := 4,
      writeBufferMax := 8, unswapBufferMin := 4,
      outOfMemoryParser := false, hardShutdown := false }
    (by decide) (by decide) rfl
  refine ⟨h.1, ?_⟩
  exact ((h.2 _).1).mpr (by decide)

/-- The type test of `columnNull` (the conjunction of inequalities at
BuilderJson.h:50-65) holds exactly when the type is outside the claim's
allowed set. -/
theorem columnNull_type_test (t : ColType) (after : Bool) :
    (t ≠ .VARCHAR ∧ t ≠ .NUMBER ∧ t ≠ .DATE ∧ t ≠ .RAW ∧ t ≠ .CHAR ∧
        t ≠ .FLOAT ∧ t ≠ .DOUBLE ∧ (t ≠ .XMLTYPE ∨ ¬after) ∧
        (t ≠ .JSON ∨ ¬after) ∧ (t ≠ .CLOB ∨ ¬after) ∧ (t ≠ .BLOB ∨ ¬after) ∧
        t ≠ .TIMESTAMP ∧ t ≠ .INTERVAL_YEAR_TO_MONTH ∧
        t ≠ .INTERVAL_DAY_TO_SECOND ∧ t ≠ .UROWID ∧
        t ≠ .TIMESTAMP_WITH_LOCAL_TZ) ↔
      ¬nullAllowedType t after := by
  cases t <;> cases after <;> simp [nullAllowedType]

/-- C7: with a known table and `UNKNOWN_HIDE`, `BuilderJson::columnNull`
emits the `"name":null` entry exactly when the guard/nested/hidden/unused
flags pass their SHOW-flag guards and the column type is in the allowed set
(char/varchar, number, date, raw, float, double, timestamp, the interval
types, urowid, timestamp with local time zone, or a large-object/xml/json
type when rendering the "after" image); all other columns emit nothing. -/
theorem columnNull_hide_characterization (fl : ShowFlags) (col : DbColumnModel)
    (after : Bool) :
    columnNullEmits fl true true col after = true ↔
      ((col.guard = true → fl.showGuardColumns = true) ∧
        (col.nested = true → fl.showNestedColumns = true) ∧
        (col.hidden = true → fl.showHiddenColumns = true) ∧
        (col.unused = true → fl.showUnusedColumns = true) ∧
        nullAllowedType col.type after) := by
  have htype := columnNull_type_test col.type after
  simp only [columnNullEmits]
  rw [if_pos (by trivial)]
  split_ifs with h1 h2 h3 h4 h5
  · simp only [Bool.false_eq_true, false_iff]
    rintro ⟨rc, -, -, -, -⟩
    exact h1.2 (rc h1.1)
  · simp only [Bool.false_eq_true, false_iff]
    rintro ⟨-, rc, -, -, -⟩
    exact h2.2 (rc h2.1)
  · simp only [Bool.false_eq_true, false_iff]
    rintro ⟨-, -, rc, -, -⟩
    exact h3.2 (rc h3.1)
  · simp only [Bool.false_eq_true, false_iff]
    rintro ⟨-, -, -, rc, -⟩
    exact h4.2 (rc h4.1)
  · simp only [Bool.false_eq_true, false_iff]
    rintro ⟨-, -, -, -, ra⟩
    exact htype.mp h5 ra
  · simp only [true_iff]
    refine ⟨?_, ?_, ?_, ?_, ?_⟩
    · intro hg
      by_contra hs
      exact h1 ⟨hg, hs⟩
    · intro hg
      by_contra hs
      exact h2 ⟨hg, hs⟩
    · intro hg
      by_contra hs
      exact h3 ⟨hg, hs⟩
    · intro hg
      by_contra hs
      exact h4 ⟨hg, hs⟩
    · by_contra hs
      exact h5 (htype.mpr hs)

/-! ## Claim theorems: C5 and C6 -/

/-- Splitting a successful `Except` bind. -/
theorem exceptBind_ok {ε : Type} {α β : Type} {x : Except ε α}
    {f : α → Except ε β} {b : β} (h : x >>= f = .ok b) :
    ∃ a, x = .ok a ∧ f a = .ok b := by
  cases x with
  | error e =>
    have herr : (Except.error e : Except ε α) >>= f = Except.error e := rfl
    rw [herr] at h
    exact Except.noConfusion h
  | ok a => exact ⟨a, rfl, h⟩

/-- C5 counterexample: two accepted configurations violating the claimed
rules (chunk size 1 MiB, minimum 16 MiB). First, `memory: (min-mb: 4096)`
violates `min-mb ≤ max-mb` against the default max-mb 2048, yet
`OpenLogReplicator::run` accepts it — the min/max comparison only runs when
the `max-mb` key is present (OpenLogReplicator.cpp:261-266). Second, with
`max-mb = 2^64 - 1` and `read-buffer-min-mb = write-buffer-min-mb = 2^63`
(all valid `uint64_t` JSON values, each passing its own bound checks) the
`uint64_t` sum at OpenLogReplicator.cpp:343 wraps to `8`, so the section is
accepted although the true sum `4 + 2^63 + 2^63 + 4` exceeds max-mb. -/
theorem memoryConfig_accepts_min_above_max :
    (processMemoryConfig 1 16
        (some { minMb := some 4096, maxMb := none, readBufferMaxMb := none,
                readBufferMinMb := none, swapMb := none,
                unswapBufferMinMb := none, writeBufferMaxMb := none,
                writeBufferMinMb := none }) =
      .ok { minMb := 4096, maxMb := 2048, readBufferMaxMb := 128,
            readBufferMinMb := 4, swapMb := 1536, unswapBufferMinMb := 4,
            writeBufferMaxMb := 2048, writeBufferMinMb := 4 } ∧
      2048 < 4096) ∧
    (processMemoryConfig 1 16
        (some { minMb := none, maxMb := some 18446744073709551615,
                readBufferMaxMb := none,
                readBufferMinMb := some 9223372036854775808,
                swapMb := none, unswapBufferMinMb := none,
                writeBufferMaxMb := none,
                writeBufferMinMb := some 9223372036854775808 }) =
      .ok { minMb := 32, maxMb := 18446744073709551615,
            readBufferMaxMb := 128,
            readBufferMinMb := 9223372036854775808,
            swapMb := 4611686018427387903, unswapBufferMinMb := 4,
            writeBufferMaxMb := 2048,
            writeBufferMinMb := 9223372036854775808 } ∧
      18446744073709551615 <
        4 + 9223372036854775808 + 9223372036854775808 + 4) := by
  exact ⟨⟨rfl, by decide⟩, ⟨rfl, by decide⟩⟩

/-- C5 (amended): the rules are enforced conditionally on key presence and
in wrapping `uint64_t` arithmetic. Whenever the memory section is accepted
(no ConfigurationException 30001): if the `max-mb` key is present then
`min-mb ≤ max-mb` holds after rounding; if the `swap-mb` key is present then
`swap-mb` is at most the `uint64_t` difference `max-mb - 4`; and the
`uint64_t` sum `unswap-buffer-min-mb + read-buffer-min-mb +
write-buffer-min-mb + 4` — reduced modulo `2^64`
(OpenLogReplicator.cpp:343) — is at most `max-mb`. (Without the `max-mb`
key `min-mb` may exceed the default maximum, and when the sum wraps the
true sum may exceed `max-mb`, cf. the counterexample.) -/
theorem memoryConfig_rules (chunkMb chunkMinMb : Nat) (j : MemoryJson)
    (s : MemorySettings)
    (h : processMemoryConfig chunkMb chunkMinMb (some j) = .ok s) :
    (j.maxMb.isSome = true → s.minMb ≤ s.maxMb) ∧
      (j.swapMb.isSome = true → s.swapMb ≤ u64sub s.maxMb 4) ∧
      u64 (s.unswapBufferMinMb + s.readBufferMinMb + s.writeBufferMinMb + 4) ≤
        s.maxMb := by
  simp only [processMemoryConfig] at h
  obtain ⟨minMb, hmin, h⟩ := exceptBind_ok h
  obtain ⟨maxD, hmax, h⟩ := exceptBind_ok h
  obtain ⟨swapV, hswap, h⟩ := exceptBind_ok h
  obtain ⟨readMinV, hrmin, h⟩ := exceptBind_ok h
  obtain ⟨readMaxV, hrmax, h⟩ := exceptBind_ok h
  obtain ⟨writeMinV, hwmin, h⟩ := exceptBind_ok h
  obtain ⟨writeMaxV, hwmax, h⟩ := exceptBind_ok h
  split_ifs at h with hsum
  simp only [Except.ok.injEq] at h
  subst h
  dsimp only
  refine ⟨?_, ?_, by omega⟩
  · intro hpres
    cases hj : j.maxMb with
    | none =>
      rw [hj] at hpres
      simp at hpres
    | some vmax =>
      rw [hj] at hmax
      simp only [checkMaxMb] at hmax
      split_ifs at hmax with hc <;>
        (simp only [Except.ok.injEq] at hmax
         subst hmax
         dsimp only
         omega)
  · intro hpres
    cases hj : j.swapMb with
    | none =>
      rw [hj] at hpres
      simp at hpres
    | some vswap =>
      rw [hj] at hswap
      simp only [checkSwapMb] at hswap
      split_ifs at hswap with hc
      simp only [Except.ok.injEq] at hswap
      subst hswap
      omega

/-- C5 witness: a fully explicit accepted memory section satisfying all
three rules. -/
theorem memoryConfig_rules_witness :
    processMemoryConfig 1 16
        (some { minMb := some 32, maxMb := some 2048,
                readBufferMaxMb := some 128, readBufferMinMb := some 4,
                swapMb := some 512, unswapBufferMinMb := some 4,
                writeBufferMaxMb := some 128, writeBufferMinMb := some 4 }) =
      .ok { minMb := 32, maxMb := 2048, readBufferMaxMb := 128,
            readBufferMinMb := 4, swapMb := 512, unswapBufferMinMb := 4,
            writeBufferMaxMb := 128, writeBufferMinMb := 4 } ∧
    32 ≤ 2048 ∧ 512 ≤ u64sub 2048 4 ∧ u64 (4 + 4 + 4 + 4) ≤ 2048 := by
  have hok :
      processMemoryConfig 1 16
          (some { minMb := some 32, maxMb := some 2048,
                  readBufferMaxMb := some 128, readBufferMinMb := some 4,
                  swapMb := some 512, unswapBufferMinMb := some 4,
                  writeBufferMaxMb := some 128, writeBufferMinMb := some 4 }) =
        .ok { minMb := 32, maxMb := 2048, readBufferMaxMb := 128,
              readBufferMinMb := 4, swapMb := 512, unswapBufferMinMb := 4,
              writeBufferMaxMb := 128, writeBufferMinMb := 4 } := rfl
  have h := memoryConfig_rules 1 16 _ _ hok
  exact ⟨hok, h.1 (by decide), h.2.1 (by decide), h.2.2⟩

/-- C6: an error of class ConfigurationException or DataException raised
while re-reading the config file at runtime is caught by
`Checkpoint::trackConfigFile`, logged with its code, and the process keeps
the previously loaded configuration — whether the error comes from the
open/size/read steps or from `updateConfigFile`; the same class of error
during startup propagates out of `OpenLogReplicator::run` and is fatal. -/
theorem configError_runtime_logged_startup_fatal (e : OlrError)
    (hkind : e.kind = .config ∨ e.kind = .data) :
    (∀ upd, trackConfigFile false true (.error e) upd = .keptOldConfig e) ∧
      trackConfigFile false true (.ok ()) (.error e) = .keptOldConfig e ∧
      runStartup (.error e) = .fatalExit e := by
  refine ⟨?_, ?_, rfl⟩
  · intro upd
    simp only [trackConfigFile]
    rcases hkind with hk | hk <;>
      simp [Bind.bind, Except.bind, hk]
  · simp only [trackConfigFile]
    rcases hkind with hk | hk <;>
      simp [Bind.bind, Except.bind, hk]

/-- C6 witness: the concrete ConfigurationException 30001. -/
theorem configError_runtime_logged_startup_fatal_witness :
    trackConfigFile false true (.ok ()) (.error ⟨.config, 30001⟩) =
        .keptOldConfig ⟨.config, 30001⟩ ∧
      runStartup (.error ⟨.config, 30001⟩) = .fatalExit ⟨.config, 30001⟩ := by
  have h := configError_runtime_logged_startup_fatal ⟨.config, 30001⟩
    (Or.inl rfl)
  exact ⟨h.2.1, h.2.2⟩

/-! ## Claim theorems: C3, C4 and C8 -/

/-- C3 (amended): after `Builder::builderCommit`, the consumer is signalled
(`flush()` runs, notifying `condNoWriterWork` and zeroing `unconfirmedSize`)
exactly when `flushBuffer == 0` or the accumulated unconfirmed size is
*strictly greater* than `flushBuffer`; a commit that makes the accumulated
size exactly equal to `flushBuffer` does *not* signal and leaves the bytes
unconfirmed (the comparison at Builder.h:410 is `>`, not `≥`). -/
theorem builderCommit_signals_iff (cfg : BuilderCfg) (s s' : BuilderSt)
    (h : builderCommit cfg s = .ok s') :
    (s'.signalled = true ↔
        cfg.flushBuffer = 0 ∨
          cfg.flushBuffer < s.unconfirmedSize + s.msgSize + s.msgPos) ∧
      (s'.signalled = true → s'.unconfirmedSize = 0) ∧
      (s'.signalled = false →
        s'.unconfirmedSize = s.unconfirmedSize + s.msgSize + s.msgPos) := by
  simp only [builderCommit] at h
  by_cases hempty : s.msgSize + s.msgPos = cfg.msgHeaderSize
  · rw [if_pos hempty] at h
    exact Except.noConfusion h
  · rw [if_neg hempty] at h
    by_cases hfl : cfg.flushBuffer = 0 ∨
        s.unconfirmedSize + (s.msgSize + s.msgPos) > cfg.flushBuffer
    · rw [if_pos hfl] at h
      simp only [Except.ok.injEq] at h
      subst h
      refine ⟨⟨fun _ => ?_, fun _ => rfl⟩, fun _ => rfl,
        fun hcon => Bool.noConfusion hcon⟩
      rcases hfl with hf | hf
      · exact Or.inl hf
      · exact Or.inr (by omega)
    · rw [if_neg hfl] at h
      simp only [Except.ok.injEq] at h
      subst h
      refine ⟨⟨fun hcon => Bool.noConfusion hcon, fun hc => ?_⟩,
        fun hcon => Bool.noConfusion hcon, fun _ => ?_⟩
      · rcases hc with hf | hf
        · exact absurd (Or.inl hf) hfl
        · exact absurd (Or.inr (by omega)) hfl
      · show s.unconfirmedSize + (s.msgSize + s.msgPos) = _
        omega

/-- C3 witness: with `flushBuffer = 0` every commit signals and resets the
unconfirmed byte count. -/
theorem builderCommit_signals_iff_witness :
    ({ lastSize := 16, lastStart := 0, closed := [], msgActive := false,
       msgOffset := 0, msgSize := 10, msgPos := 16, unconfirmedSize := 0,
       placements := [0], signalled := true } : BuilderSt).signalled = true ∧
    ({ lastSize := 16, lastStart := 0, closed := [], msgActive := false,
       msgOffset := 0, msgSize := 10, msgPos := 16, unconfirmedSize := 0,
       placements := [0], signalled := true } : BuilderSt).unconfirmedSize = 0 := by
  have h := builderCommit_signals_iff
    { dataSize := 1000, msgHeaderSize := 88, writeBufferMaxBytes := 100000,
      flushBuffer := 0 }
    { lastSize := 0, lastStart := 0, closed := [], msgActive := true,
      msgOffset := 0, msgSize := 0, msgPos := 10, unconfirmedSize := 0,
      placements := [0], signalled := false }
    { lastSize := 16, lastStart := 0, closed := [], msgActive := false,
      msgOffset := 0, msgSize := 10, msgPos := 16, unconfirmedSize := 0,
      placements := [0], signalled := true }
    rfl
  have hsig := h.1.mpr (Or.inl rfl)
  exact ⟨hsig, h.2.1 hsig⟩

/-- C3 counterexample: a commit that makes the accumulated unconfirmed size
exactly equal to `flushBuffer` (here 100) does not invoke `flush()` — the
claim's "greater than or equal" boundary case fails on the code's strict
comparison. -/
theorem builderCommit_no_signal_at_equality :
    builderCommit
        { dataSize := 1000, msgHeaderSize := 88, writeBufferMaxBytes := 100000,
          flushBuffer := 100 }
        { lastSize := 0, lastStart := BUFFER_START_UNDEFINED, closed := [],
          msgActive := true, msgOffset := 0, msgSize := 0, msgPos := 100,
          unconfirmedSize := 0, placements := [0], signalled := false } =
      .ok { lastSize := 104, lastStart := 104, closed := [],
            msgActive := false, msgOffset := 0, msgSize := 100, msgPos := 104,
            unconfirmedSize := 100, placements := [0], signalled := false } ∧
    (0 + 100 = 100 ∧ ¬(100 = 0)) := by
  exact ⟨rfl, by decide⟩

/-- C4 (amended): `Builder::builderRotate` behaves as claimed in the copy
branch — with a message in progress that still fits whole in one node, the
in-progress header and bytes move to the fresh node whose `start` is 0 —
but in the other branch the closed node absorbs the partial message bytes
and the fresh node's `start` is the sentinel `BUFFER_START_UNDEFINED`
(0xFFFFFFFFFFFFFFFF), *not* zero; it is set to the node's size by the next
`builderCommit`. -/
theorem builderRotate_characterization (cfg : BuilderCfg) (copy : Bool)
    (s : BuilderSt) (hmax : s.msgSize ≤ cfg.writeBufferMaxBytes) :
    (copy = true → s.msgActive = true → s.msgSize + s.msgPos < cfg.dataSize →
        builderRotate cfg copy s =
          .ok { s with
                closed := (s.lastSize, s.lastStart) :: s.closed,
                lastSize := 0, lastStart := 0, msgOffset := 0 }) ∧
      (¬(copy = true ∧ s.msgActive = true ∧ s.msgSize + s.msgPos < cfg.dataSize) →
        builderRotate cfg copy s =
          .ok { s with
                closed := (s.lastSize + s.msgPos, s.lastStart) :: s.closed,
                msgSize := s.msgSize + s.msgPos, msgPos := 0,
                lastSize := 0, lastStart := BUFFER_START_UNDEFINED }) := by
  constructor
  · intro hcopy hact hfit
    unfold builderRotate
    rw [if_neg (by omega), if_pos ⟨hcopy, hact, hfit⟩]
  · intro hnot
    unfold builderRotate
    rw [if_neg (by omega), if_neg hnot]

/-- C4 witness: both rotation branches at concrete states. -/
theorem builderRotate_characterization_witness :
    builderRotate
        { dataSize := 100, msgHeaderSize := 88, writeBufferMaxBytes := 1000,
          flushBuffer := 0 } true
        { lastSize := 90, lastStart := 5, closed := [], msgActive := true,
          msgOffset := 40, msgSize := 0, msgPos := 50, unconfirmedSize := 0,
          placements := [], signalled := false } =
      .ok { lastSize := 0, lastStart := 0, closed := [(90, 5)],
            msgActive := true, msgOffset := 0, msgSize := 0, msgPos := 50,
            unconfirmedSize := 0, placements := [], signalled := false } ∧
    builderRotate
        { dataSize := 100, msgHeaderSize := 88, writeBufferMaxBytes := 1000,
          flushBuffer := 0 } true
        { lastSize := 90, lastStart := 5, closed := [], msgActive := true,
          msgOffset := 40, msgSize := 60, msgPos := 50, unconfirmedSize := 0,
          placements := [], signalled := false } =
      .ok { lastSize := 0, lastStart := BUFFER_START_UNDEFINED,
            closed := [(140, 5)], msgActive := true, msgOffset := 40,
            msgSize := 110, msgPos := 0, unconfirmedSize := 0,
            placements := [], signalled := false } := by
  constructor
  · exact (builderRotate_characterization
      { dataSize := 100, msgHeaderSize := 88, writeBufferMaxBytes := 1000,
        flushBuffer := 0 } true
      { lastSize := 90, lastStart := 5, closed := [], msgActive := true,
        msgOffset := 40, msgSize := 0, msgPos := 50, unconfirmedSize := 0,
        placements := [], signalled := false } (by decide)).1 rfl rfl (by decide)
  · exact (builderRotate_characterization
      { dataSize := 100, msgHeaderSize := 88, writeBufferMaxBytes := 1000,
        flushBuffer := 0 } true
      { lastSize := 90, lastStart := 5, closed := [], msgActive := true,
        msgOffset := 40, msgSize := 60, msgPos := 50, unconfirmedSize := 0,
        placements := [], signalled := false } (by decide)).2
      (by rintro ⟨-, -, hf⟩; exact absurd hf (by decide))

/-- C4 counterexample: when the in-progress message does not fit whole in a
node, the fresh node's `start` is 0xFFFFFFFFFFFFFFFF, not the zero the
claim states. -/
theorem builderRotate_start_not_zero :
    builderRotate
        { dataSize := 100, msgHeaderSize := 88, writeBufferMaxBytes := 1000,
          flushBuffer := 0 } true
        { lastSize := 90, lastStart := 5, closed := [], msgActive := true,
          msgOffset := 40, msgSize := 60, msgPos := 50, unconfirmedSize := 0,
          placements := [], signalled := false } =
      .ok { lastSize := 0, lastStart := BUFFER_START_UNDEFINED,
            closed := [(140, 5)], msgActive := true, msgOffset := 40,
            msgSize := 110, msgPos := 0, unconfirmedSize := 0,
            placements := [], signalled := false } ∧
    BUFFER_START_UNDEFINED ≠ 0 := by
  exact ⟨rfl, by decide⟩

/-- The C8 invariant: the last node's write offset stays 8-byte aligned, and
every recorded header placement is 8-byte aligned. -/
def BuilderAligned (s : BuilderSt) : Prop :=
  s.lastSize % 8 = 0 ∧ ∀ p ∈ s.placements, p % 8 = 0

theorem builderRotate_aligned {cfg : BuilderCfg} {copy : Bool}
    {s s' : BuilderSt} (h : builderRotate cfg copy s = .ok s')
    (hs : BuilderAligned s) : BuilderAligned s' := by
  unfold builderRotate at h
  by_cases hb : s.msgSize > cfg.writeBufferMaxBytes
  · rw [if_pos hb] at h
    exact Except.noConfusion h
  · rw [if_neg hb] at h
    by_cases hc : copy = true ∧ s.msgActive = true ∧
        s.msgSize + s.msgPos < cfg.dataSize
    · rw [if_pos hc] at h
      simp only [Except.ok.injEq] at h
      subst h
      exact ⟨rfl, hs.2⟩
    · rw [if_neg hc] at h
      simp only [Except.ok.injEq] at h
      subst h
      exact ⟨rfl, hs.2⟩

theorem builderShift_aligned {cfg : BuilderCfg} {copy : Bool}
    {s s' : BuilderSt} (h : builderShift cfg copy s = .ok s')
    (hs : BuilderAligned s) : BuilderAligned s' := by
  simp only [builderShift] at h
  by_cases hc : cfg.dataSize ≤ s.lastSize + (s.msgPos + 1)
  · rw [if_pos hc] at h
    exact builderRotate_aligned h ⟨hs.1, hs.2⟩
  · rw [if_neg hc] at h
    simp only [Except.ok.injEq] at h
    subst h
    exact ⟨hs.1, hs.2⟩

theorem appendBytesSlow_aligned {cfg : BuilderCfg} {n : Nat} {s s' : BuilderSt}
    (h : appendBytesSlow cfg n s = .ok s') (hs : BuilderAligned s) :
    BuilderAligned s' := by
  induction n generalizing s with
  | zero =>
    simp only [appendBytesSlow, Except.ok.injEq] at h
    subst h
    exact hs
  | succ m ih =>
    simp only [appendBytesSlow] at h
    obtain ⟨s1, h1, h2⟩ := exceptBind_ok h
    exact ih h2 (builderShift_aligned h1 hs)

theorem appendBytes_aligned {cfg : BuilderCfg} {n : Nat} {s s' : BuilderSt}
    (h : appendBytes cfg n s = .ok s') (hs : BuilderAligned s) :
    BuilderAligned s' := by
  simp only [appendBytes] at h
  by_cases hc : s.lastSize + s.msgPos + n < cfg.dataSize
  · rw [if_pos hc] at h
    simp only [Except.ok.injEq] at h
    subst h
    exact ⟨hs.1, hs.2⟩
  · rw [if_neg hc] at h
    exact appendBytesSlow_aligned h hs

theorem builderBegin_aligned {cfg : BuilderCfg} {s s' : BuilderSt}
    (h : builderBegin cfg s = .ok s') (hs : BuilderAligned s) :
    BuilderAligned s' := by
  simp only [builderBegin] at h
  by_cases hc : cfg.dataSize ≤ s.lastSize + 0 + cfg.msgHeaderSize
  · rw [if_pos hc] at h
    obtain ⟨s1, h1, h2⟩ := exceptBind_ok h
    have hs1 : BuilderAligned s1 := builderRotate_aligned h1 ⟨hs.1, hs.2⟩
    simp only [Except.ok.injEq] at h2
    subst h2
    refine ⟨hs1.1, ?_⟩
    intro p hp
    rcases List.mem_cons.mp hp with hp | hp
    · subst hp
      exact hs1.1
    · exact hs1.2 p hp
  · rw [if_neg hc] at h
    obtain ⟨s1, h1, h2⟩ := exceptBind_ok h
    simp only [Except.ok.injEq] at h1
    subst h1
    simp only [Except.ok.injEq] at h2
    subst h2
    refine ⟨hs.1, ?_⟩
    intro p hp
    rcases List.mem_cons.mp hp with hp | hp
    · subst hp
      exact hs.1
    · exact hs.2 p hp

theorem builderCommit_aligned {cfg : BuilderCfg} {s s' : BuilderSt}
    (h : builderCommit cfg s = .ok s') (hs : BuilderAligned s) :
    BuilderAligned s' := by
  simp only [builderCommit] at h
  by_cases hempty : s.msgSize + s.msgPos = cfg.msgHeaderSize
  · rw [if_pos hempty] at h
    exact Except.noConfusion h
  · rw [if_neg hempty] at h
    have hsize : (s.lastSize + (s.msgPos + (8 - s.msgPos % 8) % 8)) % 8 = 0 := by
      have := hs.1
      omega
    split_ifs at h <;>
      (simp only [Except.ok.injEq] at h
       subst h
       exact ⟨hsize, hs.2⟩)

theorem builderStep_aligned {cfg : BuilderCfg} {op : BuilderOp}
    {s s' : BuilderSt} (h : builderStep cfg op s = .ok s')
    (hs : BuilderAligned s) : BuilderAligned s' := by
  cases op with
  | begin => exact builderBegin_aligned h hs
  | append => exact builderShift_aligned h hs
  | appendStr n => exact appendBytes_aligned h hs
  | commit => exact builderCommit_aligned h hs

/-- C8: for every sequence of producer operations (message begin, byte and
block appends, commit) run from the builder's initial state, every
`BuilderMsg` header placed by `builderBegin` sits at an 8-byte-aligned
offset within its queue node's data area — the `(8 - (messagePosition & 7))
& 7` padding of `builderCommit` and the zero offset of every fresh node
keep the node write offset a multiple of 8 whenever a header is placed. -/
theorem builderRun_placements_aligned (cfg : BuilderCfg) (ops : List BuilderOp)
    (s : BuilderSt) (h : builderRun cfg ops builderInit = .ok s) :
    ∀ p ∈ s.placements, p % 8 = 0 := by
  suffices hgen : ∀ ops0 (s0 s1 : BuilderSt), builderRun cfg ops0 s0 = .ok s1 →
      BuilderAligned s0 → BuilderAligned s1 by
    exact (hgen ops builderInit s h ⟨rfl, by decide⟩).2
  intro ops0
  induction ops0 with
  | nil =>
    intro s0 s1 h0 hs0
    simp only [builderRun, Except.ok.injEq] at h0
    subst h0
    exact hs0
  | cons op rest ih =>
    intro s0 s1 h0 hs0
    simp only [builderRun] at h0
    obtain ⟨sm, hm, hrest⟩ := exceptBind_ok h0
    exact ih sm s1 hrest (builderStep_aligned hm hs0)

/-- C8 witness: a concrete produce cycle reaches the stated final state, and
its single placed header offset 0 is 8-byte aligned. -/
theorem builderRun_placements_aligned_witness :
    builderRun
        { dataSize := 1000, msgHeaderSize := 88, writeBufferMaxBytes := 100000,
          flushBuffer := 0 }
        [.begin, .appendStr 5, .commit] builderInit =
      .ok { lastSize := 96, lastStart := 96, closed := [],
            msgActive := false, msgOffset := 0, msgSize := 93, msgPos := 96,
            unconfirmedSize := 0, placements := [0], signalled := true } ∧
      (0 : Nat) % 8 = 0 :=
  ⟨rfl,
   builderRun_placements_aligned
    { dataSize := 1000, msgHeaderSize := 88, writeBufferMaxBytes := 100000,
      flushBuffer := 0 }
    [.begin, .appendStr 5, .commit]
    { lastSize := 96, lastStart := 96, closed := [],
      msgActive := false, msgOffset := 0, msgSize := 93, msgPos := 96,
      unconfirmedSize := 0, placements := [0], signalled := true }
    rfl 0 (by decide)⟩

/-! ## Claim theorem: C1 -/

theorem drop_getD_cons : ∀ (l : List Nat) (j : Nat), j < l.length →
    l.drop j = l.getD j 0 :: l.drop (j + 1) := by
  intro l
  induction l with
  | nil =>
    intro j hj
    simp at hj
  | cons x xs ih =>
    intro j hj
    cases j with
    | zero => simp
    | succ m =>
      have hm : m < xs.length := by simpa using hj
      simpa using ih m hm

/-- Exposing the head of the pair-value slice `data[j..jMax]`. -/
theorem sliceMap_cons (data : List Nat) (pv : Nat → Nat) (jMax j : Nat)
    (hj : j ≤ jMax) (hlen : jMax < data.length) :
    ((data.drop j).take (jMax + 1 - j)).map pv =
      pv (data.getD j 0) :: ((data.drop (j + 1)).take (jMax - j)).map pv := by
  rw [drop_getD_cons data j (by omega)]
  have he : jMax + 1 - j = (jMax - j) + 1 := by omega
  rw [he, List.take_succ_cons, List.map_cons]

theorem padPairs_cons (d y : Nat) (ys : List Nat) :
    padPairs (d + 1) (y :: ys) = y :: padPairs d ys := by
  simp [padPairs, Nat.succ_sub_succ]

theorem padPairs_nil (d : Nat) : padPairs d [] = List.replicate d 0 := by
  simp [padPairs]

theorem pairChars_zero : pairChars 0 = ['0', '0'] := by
  decide

/-- The integer-part loop prints the first `d` pair values starting at
position `j` (zero pairs once the data runs out) and stops at the position
past the last in-range pair consumed. -/
theorem numIntLoop_spec (data : List Nat) (pv : Nat → Nat) (jMax : Nat)
    (hlen : jMax < data.length) :
    ∀ (d j : Nat),
      numIntLoop data pv jMax j d =
        (renderPairs (padPairs d (((data.drop j).take (jMax + 1 - j)).map pv)),
          j + min d (jMax + 1 - j)) := by
  intro d
  induction d with
  | zero =>
    intro j
    simp [numIntLoop, padPairs, renderPairs]
  | succ d ih =>
    intro j
    by_cases hj : j ≤ jMax
    · rw [sliceMap_cons data pv jMax j hj hlen, padPairs_cons]
      simp only [numIntLoop, if_pos hj, renderPairs]
      rw [ih (j + 1)]
      have he : jMax + 1 - (j + 1) = jMax - j := by omega
      rw [he]
      simp only [Prod.mk.injEq, List.append_assoc, true_and]
      omega
    · have h0 : jMax + 1 - j = 0 := by omega
      rw [h0]
      simp only [List.take_zero, List.map_nil, padPairs_nil]
      simp only [numIntLoop, if_neg hj]
      rw [ih j, h0]
      simp only [List.take_zero, List.map_nil, padPairs_nil,
        List.replicate_succ, renderPairs, pairChars_zero, List.cons_append,
        List.nil_append]
      simp only [Prod.mk.injEq, true_and]
      omega

/-- The fractional loop prints the pair values of positions `j..jMax`, the
last one with its trailing zero trimmed. -/
theorem numFracLoop_spec (data : List Nat) (pv : Nat → Nat) (jMax : Nat)
    (hlen : jMax < data.length) :
    ∀ (n j : Nat), 1 ≤ j → j ≤ jMax → jMax - j = n →
      numFracLoop data pv jMax j =
        renderFrac (((data.drop j).take (jMax + 1 - j)).map pv) := by
  intro n
  induction n with
  | zero =>
    intro j hj1 hjM hn
    rw [sliceMap_cons data pv jMax j hjM hlen, hn]
    simp only [List.take_zero, List.map_nil]
    conv_lhs => rw [numFracLoop]
    rw [dif_neg (by omega)]
    simp [renderFrac]
  | succ n ih =>
    intro j hj1 hjM hn
    rw [sliceMap_cons data pv jMax j hjM hlen]
    have he : jMax - j = jMax + 1 - (j + 1) := by omega
    rw [he, sliceMap_cons data pv jMax (j + 1) (by omega) hlen]
    conv_lhs => rw [numFracLoop]
    rw [dif_pos (by omega)]
    rw [ih (j + 1) (by omega) (by omega) (by omega)]
    rw [sliceMap_cons data pv jMax (j + 1) (by omega) hlen]
    simp [renderFrac]

theorem zeroPairs_eq (z : Nat) : zeroPairs z = List.replicate (2 * z) '0' := by
  induction z with
  | zero => rfl
  | succ z ih =>
    have h2 : 2 * (z + 1) = 2 * z + 1 + 1 := by omega
    rw [zeroPairs, ih, h2, List.replicate_succ, List.replicate_succ]

/-- The positive branch agrees with the claim-level rendering. -/
theorem parseNumberPos_spec (d0 d1 : Nat) (rest : List Nat) :
    parseNumberPos (d0 :: d1 :: rest) (rest.length + 1) d0 =
      specNumberPos d0 ((d1 :: rest).map u64pred) := by
  have hlen : rest.length + 1 < (d0 :: d1 :: rest).length := by simp
  have hdrop1 : (d0 :: d1 :: rest).drop 1 = d1 :: rest := rfl
  have htake1 : (d1 :: rest).take (rest.length + 1) = d1 :: rest :=
    List.take_of_length_le (by simp)
  by_cases hc : d0 ≤ 0xC0
  · simp only [parseNumberPos, specNumberPos, if_pos hc, numFrac]
    rw [if_pos (show (1 : Nat) ≤ rest.length + 1 by omega)]
    rw [numFracLoop_spec _ u64pred _ hlen (rest.length + 1 - 1) 1 le_rfl
      (by omega) rfl]
    rw [hdrop1]
    have hb : rest.length + 1 + 1 - 1 = rest.length + 1 := by omega
    rw [hb, htake1]
    have hne : (d1 :: rest).map u64pred ≠ [] := by simp
    rw [if_neg hne, zeroPairs_eq]
  · simp only [parseNumberPos, specNumberPos, if_neg hc]
    rw [numIntLoop_spec _ u64pred _ hlen (d0 - 0xC0 - 1) 2]
    have hdrop2 : (d0 :: d1 :: rest).drop 2 = rest := rfl
    have hb2 : rest.length + 1 + 1 - 2 = rest.length := by omega
    rw [hdrop2, hb2, List.take_length]
    have hget1 : (d0 :: d1 :: rest).getD 1 0 = d1 := rfl
    rw [hget1]
    have hhead : ((d1 :: rest).map u64pred).headD 0 = u64pred d1 := by simp
    rw [hhead]
    have hdropPs : ((d1 :: rest).map u64pred).drop 1 = rest.map u64pred := by
      simp
    rw [hdropPs]
    by_cases hk : d0 - 0xC0 ≤ rest.length
    · -- the fraction part exists
      have hmin : min (d0 - 0xC0 - 1) (rest.length) = d0 - 0xC0 - 1 := by omega
      rw [hmin]
      have hj : 2 + (d0 - 0xC0 - 1) = (d0 - 0xC0) + 1 := by omega
      rw [hj]
      simp only [numFrac]
      rw [if_pos (show (d0 - 0xC0) + 1 ≤ rest.length + 1 by omega)]
      rw [numFracLoop_spec _ u64pred _ hlen
        (rest.length + 1 - ((d0 - 0xC0) + 1)) ((d0 - 0xC0) + 1) (by omega)
        (by omega) rfl]
      have hdropk : (d0 :: d1 :: rest).drop ((d0 - 0xC0) + 1) =
          rest.drop (d0 - 0xC0 - 1) := by
        have h1 : (d0 - 0xC0) + 1 = (d0 - 0xC0 - 1) + 1 + 1 := by omega
        rw [h1, List.drop_succ_cons, List.drop_succ_cons]
      rw [hdropk]
      have hbk : rest.length + 1 + 1 - ((d0 - 0xC0) + 1) =
          rest.length - (d0 - 0xC0 - 1) := by omega
      rw [hbk]
      have htakek : (rest.drop (d0 - 0xC0 - 1)).take
          (rest.length - (d0 - 0xC0 - 1)) = rest.drop (d0 - 0xC0 - 1) := by
        apply List.take_of_length_le
        rw [List.length_drop]
      rw [htakek]
      have hdropPsk : ((d1 :: rest).map u64pred).drop (d0 - 0xC0) =
          (rest.drop (d0 - 0xC0 - 1)).map u64pred := by
        rw [← List.map_drop]
        have hsplit : (d1 :: rest).drop (d0 - 0xC0) = rest.drop (d0 - 0xC0 - 1) := by
          have h1 : d0 - 0xC0 = (d0 - 0xC0 - 1) + 1 := by omega
          conv_lhs => rw [h1]
          rw [List.drop_succ_cons]
        rw [hsplit]
      rw [hdropPsk]
      have hnef : (rest.drop (d0 - 0xC0 - 1)).map u64pred ≠ [] := by
        simp only [ne_eq, List.map_eq_nil_iff]
        intro hcon
        have := congrArg List.length hcon
        simp only [List.length_drop, List.length_nil] at this
        omega
      rw [if_neg hnef]
      simp [zeroPairs]
    · -- no fraction: the pre-decimal count covers (or exceeds) the data
      have hmin : min (d0 - 0xC0 - 1) (rest.length) = rest.length := by omega
      rw [hmin]
      simp only [numFrac]
      rw [if_neg (show ¬(2 + rest.length ≤ rest.length + 1) by omega)]
      have hdown : ((d1 :: rest).map u64pred).drop (d0 - 0xC0) = [] := by
        apply List.drop_eq_nil_of_le
        simp
        omega
      rw [hdown]
      simp

theorem getD_length_getLast : ∀ (l : List Nat) (d : Nat),
    (d :: l).getD l.length 0 = ((d :: l).getLast?).getD 0 := by
  intro l
  induction l with
  | nil =>
    intro d
    rfl
  | cons r rs ih =>
    intro d
    rw [List.getLast?_cons_cons]
    exact ih r

/-- The zero-integer-part fraction of the decoder, against the claim-level
rendering over the (possibly terminator-stripped) pair prefix. -/
theorem negFrac_spec (d0 d1 : Nat) (rest : List Nat) (pv : Nat → Nat)
    (jm z : Nat) (hle : jm ≤ rest.length + 1) :
    numFrac (d0 :: d1 :: rest) pv jm 1 z =
      (if ((d1 :: rest).take jm).map pv = [] then []
       else '.' :: (List.replicate (2 * z) '0' ++
         renderFrac (((d1 :: rest).take jm).map pv))) := by
  have hlen : jm < (d0 :: d1 :: rest).length := by
    simp only [List.length_cons]
    omega
  by_cases hj : 1 ≤ jm
  · simp only [numFrac]
    rw [if_pos hj]
    rw [numFracLoop_spec _ pv _ hlen (jm - 1) 1 le_rfl hj rfl]
    have hd1 : (d0 :: d1 :: rest).drop 1 = d1 :: rest := rfl
    have hb : jm + 1 - 1 = jm := by omega
    rw [hd1, hb]
    have hne : ((d1 :: rest).take jm).map pv ≠ [] := by
      simp only [ne_eq, List.map_eq_nil_iff, List.take_eq_nil_iff]
      simp only [List.cons_ne_nil, or_false]
      omega
    rw [if_neg hne, zeroPairs_eq]
  · have hj0 : jm = 0 := by omega
    subst hj0
    simp [numFrac]

/-- The nonzero-integer-part body of the decoder's negative (and, with
`pv := u64pred`, positive) rendering against the claim-level one, over the
pair prefix `(d1 :: rest).take jm`. -/
theorem negKBranch_spec (d0 d1 : Nat) (rest : List Nat) (pv : Nat → Nat)
    (k jm : Nat) (hk1 : 1 ≤ k) (hle : jm ≤ rest.length + 1) :
    firstPairChars (pv ((d0 :: d1 :: rest).getD 1 0)) ++
        (numIntLoop (d0 :: d1 :: rest) pv jm 2 (k - 1)).1 ++
        numFrac (d0 :: d1 :: rest) pv jm
          (numIntLoop (d0 :: d1 :: rest) pv jm 2 (k - 1)).2 0 =
      firstPairChars (pv d1) ++
        renderPairs (padPairs (k - 1) ((((d1 :: rest).take jm).map pv).drop 1)) ++
        (if (((d1 :: rest).take jm).map pv).drop k = [] then []
         else '.' :: renderFrac ((((d1 :: rest).take jm).map pv).drop k)) := by
  have hlen : jm < (d0 :: d1 :: rest).length := by
    simp only [List.length_cons]
    omega
  rw [numIntLoop_spec _ pv _ hlen (k - 1) 2]
  have hget1 : (d0 :: d1 :: rest).getD 1 0 = d1 := rfl
  have hdrop2 : (d0 :: d1 :: rest).drop 2 = rest := rfl
  have hb2 : jm + 1 - 2 = jm - 1 := by omega
  rw [hget1, hdrop2, hb2]
  have hq1 : (((d1 :: rest).take jm).map pv).drop 1 =
      (rest.take (jm - 1)).map pv := by
    rw [← List.map_drop, List.drop_take]
    rfl
  rw [hq1]
  have hqk : (((d1 :: rest).take jm).map pv).drop k =
      ((rest.drop (k - 1)).take (jm - k)).map pv := by
    rw [← List.map_drop, List.drop_take]
    have hdk : (d1 :: rest).drop k = rest.drop (k - 1) := by
      conv_lhs => rw [show k = (k - 1) + 1 by omega]
      rw [List.drop_succ_cons]
    rw [hdk]
  rw [hqk]
  by_cases hkk : k < jm
  · have hmin : min (k - 1) (jm - 1) = k - 1 := by omega
    rw [hmin]
    have hj : 2 + (k - 1) = k + 1 := by omega
    rw [hj]
    simp only [numFrac]
    rw [if_pos (show k + 1 ≤ jm by omega)]
    rw [numFracLoop_spec _ pv _ hlen (jm - (k + 1)) (k + 1) (by omega)
      (by omega) rfl]
    have hdropk1 : (d0 :: d1 :: rest).drop (k + 1) = rest.drop (k - 1) := by
      conv_lhs => rw [show k + 1 = (k - 1) + 1 + 1 by omega]
      rw [List.drop_succ_cons, List.drop_succ_cons]
    rw [hdropk1]
    have hbk : jm + 1 - (k + 1) = jm - k := by omega
    rw [hbk]
    have hne : ((rest.drop (k - 1)).take (jm - k)).map pv ≠ [] := by
      intro hcon
      have hl := congrArg List.length hcon
      simp only [List.length_map, List.length_take, List.length_drop,
        List.length_nil] at hl
      omega
    rw [if_neg hne]
    simp [zeroPairs]
  · have hmin : min (k - 1) (jm - 1) = jm - 1 := by omega
    rw [hmin]
    simp only [numFrac]
    rw [if_neg (show ¬(2 + (jm - 1) ≤ jm) by omega)]
    have hnil : ((rest.drop (k - 1)).take (jm - k)).map pv = [] := by
      rw [show jm - k = 0 by omega]
      simp
    rw [hnil]
    simp

/-- The negative branch agrees with the claim-level rendering. -/
theorem parseNumberNeg_spec (d0 d1 : Nat) (rest : List Nat) :
    parseNumberNeg (d0 :: d1 :: rest) (rest.length + 1) d0 =
      specNumberNeg d0 (d1 :: rest) := by
  simp only [parseNumberNeg, specNumberNeg]
  have hgd : (d0 :: d1 :: rest).getD (rest.length + 1) 0 =
      (d1 :: rest).getD rest.length 0 := rfl
  have hcond : ((d0 :: d1 :: rest).getD (rest.length + 1) 0 = 0x66) ↔
      ((d1 :: rest).getLast? = some 0x66) := by
    rw [hgd, getD_length_getLast]
    cases hgl : (d1 :: rest).getLast? with
    | none => simp at hgl
    | some y => simp
  by_cases hstrip : (d1 :: rest).getLast? = some 0x66
  · rw [if_pos (hcond.mpr hstrip), if_pos hstrip]
    have hjm : rest.length + 1 - 1 = rest.length := by omega
    rw [hjm]
    have hdl : (d1 :: rest).dropLast = (d1 :: rest).take rest.length := by
      rw [List.dropLast_eq_take]
      simp
    rw [hdl]
    by_cases hzero : 0x3F ≤ d0
    · rw [if_pos hzero, if_pos hzero]
      rw [negFrac_spec d0 d1 rest u64from101 rest.length (d0 - 0x3F)
        (by omega)]
    · rw [if_neg hzero, if_neg hzero]
      exact negKBranch_spec d0 d1 rest u64from101 (0x3F - d0) rest.length
        (by omega) (by omega)
  · rw [if_neg (fun hcon => hstrip (hcond.mp hcon)), if_neg hstrip]
    have htk : (d1 :: rest).take (rest.length + 1) = d1 :: rest :=
      List.take_of_length_le (by simp)
    by_cases hzero : 0x3F ≤ d0
    · rw [if_pos hzero, if_pos hzero]
      have hz := negFrac_spec d0 d1 rest u64from101 (rest.length + 1)
        (d0 - 0x3F) (by omega)
      rw [htk] at hz
      rw [hz]
    · rw [if_neg hzero, if_neg hzero]
      have hk := negKBranch_spec d0 d1 rest u64from101 (0x3F - d0)
        (rest.length + 1) (by omega) (by omega)
      rw [htk] at hk
      exact hk

/-- C1: `Builder::parseNumber` decodes the on-wire numeric format exactly
as specified: for every byte array with `size ≥ 1` — if `data[0] == 0x80`
the decoded text is "0"; if `data[0] > 0x80` (and `size ≥ 2`) it renders
the positive decimal given by the claim-level
rendering `specNumberPos` (pre-decimal pair count `data[0] - 0xC0`, digit
pairs `data[j] - 1`, trailing zero of the last fractional pair trimmed); if
`data[0] < 0x80` (and `size ≥ 2`) it renders the negative decimal given by
`specNumberNeg` (pre-decimal pair count `0x3F - data[0]`, digit pairs
`101 - data[j]`, a trailing `0x66` terminator byte stripped); any other
shape raises the parse error 50009 (`RedoLogException`). -/
theorem parseNumber_matches_claim (data : List Nat) (D : Nat)
    (rest : List Nat) (hdata : data = D :: rest) :
    (D = 0x80 → parseNumber data = .ok ['0']) ∧
      (0x80 < D → 2 ≤ data.length →
        parseNumber data = .ok (specNumberPos D (rest.map u64pred))) ∧
      (D < 0x80 → 2 ≤ data.length →
        parseNumber data = .ok ('-' :: specNumberNeg D rest)) ∧
      (D ≠ 0x80 → data.length < 2 → parseNumber data = .error 50009) := by
  subst hdata
  refine ⟨?_, ?_, ?_, ?_⟩
  · intro h80
    subst h80
    simp [parseNumber]
  · intro hgt hlen
    cases rest with
    | nil => simp at hlen
    | cons d1 rs =>
      simp only [parseNumber]
      rw [if_neg (show ¬(D = 0x80) by omega)]
      have hjm : (D :: d1 :: rs).length - 1 = rs.length + 1 := by simp
      rw [hjm]
      rw [if_pos ⟨hgt, by omega⟩]
      rw [parseNumberPos_spec D d1 rs]
  · intro hlt hlen
    cases rest with
    | nil => simp at hlen
    | cons d1 rs =>
      simp only [parseNumber]
      rw [if_neg (show ¬(D = 0x80) by omega)]
      have hjm : (D :: d1 :: rs).length - 1 = rs.length + 1 := by simp
      rw [hjm]
      rw [if_neg (show ¬(0x80 < D ∧ 1 ≤ rs.length + 1) by
        rintro ⟨hc, -⟩
        omega)]
      rw [if_pos ⟨hlt, by omega⟩]
      rw [parseNumberNeg_spec D d1 rs]
  · intro hne hlen
    cases rest with
    | cons d1 rs =>
      simp only [List.length_cons] at hlen
      omega
    | nil =>
      simp only [parseNumber]
      rw [if_neg hne]
      rw [if_neg (by rintro ⟨-, hc⟩; simp at hc),
        if_neg (by rintro ⟨-, hc⟩; simp at hc)]

/-- C1 witness: the canonical encoding of 123 (bytes C2 02 18) decodes to
"123", and the canonical encoding of -1 (bytes 3E 64 66) decodes to "-1". -/
theorem parseNumber_matches_claim_witness :
    parseNumber [0xC2, 2, 24] = .ok ['1', '2', '3'] ∧
      parseNumber [0x3E, 100, 0x66] = .ok ['-', '1'] := by
  constructor
  · have h := (parseNumber_matches_claim [0xC2, 2, 24] 0xC2 [2, 24] rfl).2.1
      (by decide) (by decide)
    rw [h]
    exact congrArg Except.ok (by decide)
  · have h := (parseNumber_matches_claim [0x3E, 100, 0x66] 0x3E [100, 0x66]
      rfl).2.2.1 (by decide) (by decide)
    rw [h]
    exact congrArg Except.ok (by decide)

/-! ## Claim theorems: C9 and C10 -/

/-- C9 counterexample: the string "+10:00" is of the claimed form (two-digit
hour 10 ≤ 14, minutes 00) and is accepted by `Ctx::parseTimezone`, but the
parsed value is -36000 and `Ctx::timezoneToString` prints it as "-10:00",
not "+10:00" — the round trip fails. -/
theorem timezone_roundTrip_fails_at_plus10 :
    parseTimezone ('+' :: '1' :: '0' :: ':' :: '0' :: '0' :: []) = some (-36000) ∧
    timezoneToString (-36000) = '-' :: '1' :: '0' :: ':' :: '0' :: '0' :: [] ∧
    timezoneToString (-36000) ≠ '+' :: '1' :: '0' :: ':' :: '0' :: '0' :: [] := by
  refine ⟨?_, by decide, by decide⟩
  decide

/-- C9 (amended): the parse/print round trip holds exactly on the offset
strings whose hour has a zero tens digit and whose minutes are 00: for every
digit `h`, "+0h:00" parses to 3600·h and prints back identically, and for
`h ≥ 1`, "-0h:00" parses to -3600·h and prints back identically. (For any
other accepted "±HH:MM" the minute digits are mis-scaled and a nonzero hour
tens digit flips the sign, cf. the counterexample.) -/
theorem timezone_roundTrip_zero_minutes :
    ∀ h : Nat, h < 10 →
      (parseTimezone ('+' :: '0' :: map10 h :: ':' :: '0' :: '0' :: []) =
          some (3600 * (h : Int)) ∧
        timezoneToString (3600 * (h : Int)) =
          '+' :: '0' :: map10 h :: ':' :: '0' :: '0' :: []) ∧
      (1 ≤ h →
        parseTimezone ('-' :: '0' :: map10 h :: ':' :: '0' :: '0' :: []) =
            some (-(3600 * (h : Int))) ∧
          timezoneToString (-(3600 * (h : Int))) =
            '-' :: '0' :: map10 h :: ':' :: '0' :: '0' :: []) := by
  decide

/-- C9 witness: the round trip at "+09:00" and "-09:00". -/
theorem timezone_roundTrip_zero_minutes_witness :
    parseTimezone ('+' :: '0' :: map10 9 :: ':' :: '0' :: '0' :: []) =
        some (3600 * (9 : Int)) ∧
      timezoneToString (-(3600 * (9 : Int))) =
        '-' :: '0' :: map10 9 :: ':' :: '0' :: '0' :: [] := by
  have h := timezone_roundTrip_zero_minutes 9 (by decide)
  exact ⟨h.1.1, (h.2 (by decide)).2⟩

/-- C10 counterexample: on the one-byte string "/" (byte 47) the two JSON
escapers disagree — `Ctx::writeEscapeValue` emits "/" unchanged while
`BuilderJson::appendEscape` emits "\/". -/
theorem escape_disagree_at_slash :
    writeEscapeValue (47 :: []) = 47 :: [] ∧
    appendEscape (47 :: []) = 92 :: 47 :: [] ∧
    writeEscapeValue (47 :: []) ≠ appendEscape (47 :: []) := by
  decide

set_option maxRecDepth 8000 in
/-- Byte-level comparison of the two escapers, proved by evaluation on all
256 byte values. -/
theorem escapeByte_agree_iff :
    ∀ b : Nat, b < 256 → (writeEscapeByte b = appendEscapeByte b ↔ escapeAgrees b) := by
  decide

/-- C10 (amended): the two escapers agree on a byte exactly when it is in
`escapeAgrees` — bytes 0..10, 12, 13 (the named escapes plus controls whose
decimal and hex renderings coincide) and the printable ASCII range except
'/'; consequently the two functions emit identical character sequences for
every string over that byte set. They disagree elsewhere: on '/' (escaped
only by `appendEscape`), on control bytes 11 and 14..31 (hex versus decimal
`\u00..` digits) and on bytes ≥ 0x80 (escaped only by `writeEscapeValue`,
whose signed-char comparison classifies them as controls). -/
theorem escape_equiv_characterization :
    (∀ b : Nat, b < 256 →
        (writeEscapeByte b = appendEscapeByte b ↔ escapeAgrees b)) ∧
      ∀ l : List Nat, (∀ b ∈ l, escapeAgrees b) →
        writeEscapeValue l = appendEscape l := by
  refine ⟨escapeByte_agree_iff, ?_⟩
  intro l hl
  induction l with
  | nil => rfl
  | cons b rest ih =>
    have hb : escapeAgrees b := hl b (by simp)
    have hb256 : b < 256 := by
      rcases hb with h | h | h | h <;> omega
    have hrest := ih fun x hx => hl x (by simp [hx])
    simp only [writeEscapeValue, appendEscape, hrest,
      (escapeByte_agree_iff b hb256).mpr hb]

/-- C10 witness: the escapers agree on the byte string "Hi" (72, 105). -/
theorem escape_equiv_characterization_witness :
    writeEscapeValue (72 :: 105 :: []) = appendEscape (72 :: 105 :: []) := by
  exact escape_equiv_characterization.2 (72 :: 105 :: []) (by decide)

end OLR
